import Mathlib

/-!
# Verification of the COMP767 HW03 reinforcement-learning experiments

This file gives a shallow embedding, in Lean 4, of the two training engines
of the repository:

* `HW03Q01.py` — semi-gradient TD(0) on Baird's seven-state counterexample
  (class `TD_Zero_Agent_Baird_Counterexample`), together with a model of the
  legacy NumPy random source it draws from (`np.random.seed` /
  `np.random.choice(7)`, i.e. the MT19937 generator with masked rejection
  sampling);
* `HW03Q02.py` — the REINFORCE / Actor-Critic policy-gradient harness
  (`discount_rewards`, `Policy.backprop_rf`, `Policy.backprop_ac`,
  `one_run`, `runs`), with the gym environment treated as an opaque
  collaborator supplying per-step `(reward, done)` outcomes or failures.

Machine floats are modelled by exact rationals (and by real numbers where
square roots, logarithms and exponentials occur); NumPy arrays by lists.
-/

/-! ## Model of the legacy NumPy random source (`HW03Q01.py` lines 222-225, 234)

`np.random.seed(n)` for an integer `n < 2^32` initialises an MT19937 state
with the standard `init_genrand` recurrence; `np.random.choice(7)` draws one
32-bit output, keeps the low three bits and rejects the value 7
(masked rejection sampling, the legacy `RandomState` bounded-integer
algorithm for a range that fits in 32 bits).  The 624-word state table is
kept packed in a single natural number, word `i` occupying bits
`32*i .. 32*i + 31`. -/

/-- Word `i` of a packed state table. -/
def mtW (mt i : ℕ) : ℕ := (mt >>> (32 * i)) &&& 0xFFFFFFFF

/-- One word of the MT19937 `init_genrand` seeding recurrence:
`mt[i] = (1812433253 * (mt[i-1] xor (mt[i-1] >> 30)) + i) mod 2^32`. -/
def mtInitWord (prev i : ℕ) : ℕ :=
  (1812433253 * (prev ^^^ (prev >>> 30)) + i) &&& 0xFFFFFFFF

/-- Words `i+1 .. i+n` of the seeding recurrence, packed on top of `acc`
(which holds words `0 .. i`; `prev` is word `i`). -/
def mtInitAcc : ℕ → ℕ → ℕ → ℕ → ℕ
  | 0, _, _, acc => acc
  | n + 1, i, prev, acc =>
    let v := mtInitWord prev (i + 1)
    mtInitAcc n (i + 1) v (acc + (v <<< (32 * (i + 1))))

/-- The packed 624-word MT19937 state table obtained from an integer seed. -/
def mtInitTbl (seed : ℕ) : ℕ :=
  mtInitAcc 623 0 (seed &&& 0xFFFFFFFF) (seed &&& 0xFFFFFFFF)

/-- Word `i` of the MT19937 twist of table `mt`. -/
def mtTwistVal (mt : ℕ) : ℕ → ℕ → ℕ
  | 0, _ => 0
  | fuel + 1, i =>
    let y := (mtW mt i &&& 0x80000000) |||
      ((if i = 623 then mtTwistVal mt fuel 0 else mtW mt (i + 1)) &&& 0x7FFFFFFF)
    let src := if i + 397 < 624 then mtW mt (i + 397) else mtTwistVal mt fuel (i + 397 - 624)
    let v := src ^^^ (y >>> 1)
    if y % 2 = 1 then v ^^^ 0x9908B0DF else v

/-- The twisted words `0 .. n-1`, packed. -/
def mtTwistAcc (mt : ℕ) : ℕ → ℕ
  | 0 => 0
  | n + 1 => mtTwistAcc mt n + (mtTwistVal mt 4 n <<< (32 * n))

/-- A full MT19937 twist: regenerate all 624 words. -/
def mtTwist (mt : ℕ) : ℕ := mtTwistAcc mt 624

/-- The MT19937 tempering transform applied to a raw state word. -/
def mtTemper (y0 : ℕ) : ℕ :=
  let y1 := y0 ^^^ (y0 >>> 11)
  let y2 := y1 ^^^ ((y1 <<< 7) &&& 0x9D2C5680)
  let y3 := y2 ^^^ ((y2 <<< 15) &&& 0xEFC60000)
  (y3 ^^^ (y3 >>> 18)) &&& 0xFFFFFFFF

/-- Generator state: the packed 624-word table and the read index. -/
structure MTState where
  mt : ℕ
  idx : ℕ
  deriving Repr, DecidableEq

/-- State right after `np.random.seed seed` (index 624 forces a twist on the
first draw, as in the reference implementation). -/
def mtInit (seed : ℕ) : MTState := ⟨mtInitTbl seed, 624⟩

/-- Draw one tempered 32-bit output. -/
def mtNext (s : MTState) : ℕ × MTState :=
  if 624 ≤ s.idx then
    let m := mtTwist s.mt
    (mtTemper (mtW m 0), ⟨m, 1⟩)
  else
    (mtTemper (mtW s.mt s.idx), ⟨s.mt, s.idx + 1⟩)

/-- `np.random.choice(7)`: draw a 32-bit word, mask to the low 3 bits and
reject the value 7.  The rejection loop is given explicit fuel; for the
concrete seeds used below the fuel is never exhausted. -/
def choice7 : ℕ → MTState → ℕ × MTState
  | 0, s => (0, s)
  | fuel + 1, s =>
    let (u, s2) := mtNext s
    if u &&& 7 <= 6 then (u &&& 7, s2) else choice7 fuel s2

/-- A list of `n` successive `np.random.choice(7)` draws. -/
def choiceDraws : ℕ → MTState → List ℕ × MTState
  | 0, s => ([], s)
  | n + 1, s =>
    let (v, s2) := choice7 1000 s
    let (rest, s3) := choiceDraws n s2
    (v :: rest, s3)

/-! ## Baird's counterexample agent (`HW03Q01.py` lines 194-240)

Weight vectors are lists of 8 rationals, the feature table is the 7 × 8
matrix built in `__init__` (lines 203-217), and one TD(0) step is the body
of `semi_gradient_one_step` (lines 232-240). -/

/-- The feature matrix `self.features` of `TD_Zero_Agent_Baird_Counterexample.__init__`:
row `s` is the feature vector of state `s`; out-of-range states give the zero
row (never reached by the sampler). -/
def features (s : ℕ) : List ℚ :=
  [[2, 0, 0, 0, 0, 0, 0, 1],
   [0, 2, 0, 0, 0, 0, 0, 1],
   [0, 0, 2, 0, 0, 0, 0, 1],
   [0, 0, 0, 2, 0, 0, 0, 1],
   [0, 0, 0, 0, 2, 0, 0, 1],
   [0, 0, 0, 0, 0, 2, 0, 1],
   [0, 0, 0, 0, 0, 0, 1, 2]].getD s (List.replicate 8 0)

/-- `np.sum(a * b)` for two equal-length vectors: the dot product. -/
def npDot (a b : List ℚ) : ℚ := (List.zipWith (· * ·) a b).sum

/-- The initial weight vector `np.array([1,1,1,1,1,1,10,1])` (line 202). -/
def bairdInitW : List ℚ := [1, 1, 1, 1, 1, 1, 10, 1]

/-- `semi_gradient_one_step` (lines 232-240): given the previous weight
snapshot `w`, the current state `old_state` and the freshly sampled
`new_state`, compute
`delta = gamma * (features[new_state] · w) - features[old_state] · w`,
`ratio = 7 * (new_state == 6)`, store
`w + alpha * ratio * delta * features[old_state]` as the next snapshot and
advance the current state to `new_state`.  Returns (next snapshot, next
current state). -/
def semi_gradient_one_step (alpha gamma : ℚ) (w : List ℚ) (old_state new_state : ℕ) :
    List ℚ × ℕ :=
  let delta := gamma * npDot (features new_state) w - npDot (features old_state) w
  let ratio : ℚ := 7 * (if new_state = 6 then 1 else 0)
  (List.zipWith (fun wi fi => wi + alpha * ratio * delta * fi) w (features old_state),
   new_state)

/-- `semi_gradient_one_run` (lines 228-230): fold the one-step update over the
list of sampled next states, starting from weights `w` in state `s`; returns
the final weight snapshot. -/
def semi_gradient_one_run (alpha gamma : ℚ) (w : List ℚ) (s : ℕ) (draws : List ℕ) :
    List ℚ :=
  (draws.foldl (fun (acc : List ℚ × ℕ) new => semi_gradient_one_step alpha gamma acc.1 acc.2 new)
    (w, s)).1

/-- One full Baird run as launched by `train_all_runs` (lines 220-226): seed the
generator with the current seed counter, draw the initial state with
`np.random.choice(7)`, then perform `steps` one-step updates, each drawing its
next state from the same generator.  Returns the final weight snapshot
`ws[run, steps]`. -/
def bairdRunFinalW (seed steps : ℕ) : List ℚ :=
  let (draws, _) := choiceDraws (steps + 1) (mtInit seed)
  match draws with
  | [] => bairdInitW
  | s0 :: rest => semi_gradient_one_run (1 / 100) (99 / 100) bairdInitW s0 rest

/-! ### Integer-scaled mirror of the update

With `alpha = 1/100` and `gamma = 99/100`, every update multiplies the
denominator by at most `10000`, so the weight vector after `t` steps is
`10000^t`-integral.  `stepZ`/`runZ` compute `10000^t * w_t` exactly, in ℤ;
the lemma `run_scaled` below proves they agree with the rational
`semi_gradient_one_step`/`semi_gradient_one_run`.  All heavy kernel
evaluation is done on this gcd-free integer form. -/

/-- The feature matrix again, with ℤ entries (`features` is its ℚ cast). -/
def featuresZ (s : ℕ) : List ℤ :=
  [[2, 0, 0, 0, 0, 0, 0, 1],
   [0, 2, 0, 0, 0, 0, 0, 1],
   [0, 0, 2, 0, 0, 0, 0, 1],
   [0, 0, 0, 2, 0, 0, 0, 1],
   [0, 0, 0, 0, 2, 0, 0, 1],
   [0, 0, 0, 0, 0, 2, 0, 1],
   [0, 0, 0, 0, 0, 0, 1, 2]].getD s (List.replicate 8 0)

/-- Integer dot product. -/
def dotZ (a b : List ℤ) : ℤ := (List.zipWith (· * ·) a b).sum

/-- `10000 • (one TD(0) step)` on `10000^t`-scaled integer weights:
if `U = 10000^t * w` then `stepZ U old new = 10000^(t+1) * w'`. -/
def stepZ (U : List ℤ) (old new : ℕ) : List ℤ :=
  let dnew := dotZ (featuresZ new) U
  let dold := dotZ (featuresZ old) U
  let ratio : ℤ := if new = 6 then 7 else 0
  List.zipWith (fun ui fi => 10000 * ui + ratio * (99 * dnew - 100 * dold) * fi)
    U (featuresZ old)

/-- The scaled run: fold `stepZ` over the sampled next states, threading the
current state exactly as `semi_gradient_one_run` does. -/
def runZ (U : List ℤ) (s : ℕ) (draws : List ℕ) : List ℤ × ℕ :=
  draws.foldl (fun (acc : List ℤ × ℕ) new => (stepZ acc.1 acc.2 new, new)) (U, s)

/-- Cast an integer to ℚ and divide by the scale `c`. -/
def scaleCast (c : ℚ) (z : ℤ) : ℚ := (z : ℚ) / c

/-! ### Concrete evaluation data for the seed-16 Baird run

The data below (packed MT19937 tables, the 1001 `choice7` draws, and scaled
weight snapshots) is fixed by the definitions above; every equation is
checked by `decide` (kernel evaluation).  `mtTbl k` is the generator table
after `k` twists of the seed-16 initial table. -/

def mtTbl0 : ℕ :=
  83695172806054573564751673820646826123075611653232911351283681686832729649458000271290889066512892750037994021887910555449698622065908465038813608273920415012576836129853816511784251281118839689369304751496193795492860832076444132622122669107486208345544220644059187102669307452414361390366215868069334070511130677600693268163925304506044251519120357488620050823214252187265328510345819129935199694539488603122296783267454309379771681143853041279641936195077541035911410228683868340575891847324221245229736661381112424501572929852172243207335027814446831906998223901210399217225755274460793409638617116046838177505176186195803555539354487728494240216490141226092757120200888673928193854565775247004299398998720752295634698054098790030782476456443562373992660627705990175340871108862320616399285390701069414841976748976695392415890128808222443850904213473823173866001758750909215146800544265608089382385554567304041470778501879597012023458205611601322265700517534291204079708303329564794305067403244679260393602222640822279092732531413829300227548624920627478221288495200228782380749967072388516942520432949356620677603193398213061937303964578918194305693035017250225853617752815732092225237635157036771379732418296870459258749366069298160443611041735643513837283786407971525368847109104506402045974993785307656784830023121060126054724211040419537816967210073449623609158294501981141601023201577055115326638903423532381885600801873869540583399462755663231735361479484681011277550999822193806520632253774164388886412209790972830017973116083934797181973048708545221008065811639413979931852736229678867847368688315829009669529154767446676940789280465220856126516327851784857265744761244597375433189510226565623003324378293096644870115524848719575714463074907436737499658442218666986803578687106258266071538082317145313236895315939271308019875537695083814488534073350251924075701643223805323039313494385874584265204119686381601940447063900254203603134730999135387818305055272868945590241616613471336675076314091368395460596909865347235147124660035744940988199879775840770863387738655625687653356568877566773081604293572183679762684347883591005728967227561145892869846232535329705467480852255814177906513590490385772729184781095287990752395364924156263257454198507766861880465263048158349962115061359617544050250231217534776696889224080583039249190732498834080423921589363890501072481410546583114313439607214373826710246452262101223941138896662019402164241385887595455121277201459920691748555060478127906390834346669157011563973901103137512061594985697377443018046518521957687396181727069694491721397098665281192216861409441724797746131616157043077099192945667509640835515648718806178512100601447254841409203041581590488206829108185253995160098989761278233504795661234255663983185552915693007966022751994162937982502350239591884758643715710836376926589253529913433682207972733272893440496376394292487876011406856342847126408274458437221898764491678197462740439233064206144409637723642552529863629410745001103275316066408420633281506667016095240050516294925818863119538949269596050599940459822791687112756013600271656844216041605926202588435781497452285707335521635533491487455082105858916788351804431514845691041568719786337673747635513335216159196990043290497430997862119678758841314779804102303426037661002108510782682401593514975054263240146229161724273797435769912535628823009187507647943037481489692905595030703982769276643078723142938814236800587528271181361395410159079182428892509603742664052265953624434923862922707019114877412070530371280538749334366128098512381123458439084431399590799244747529354342109193090044659731510275900047776007552743754668648025201596788183993357628530042505861942271165591430546867488636213005113374938273776711052214716941837191378118515372660454849339738382451911275865928834347114018455308473057035130065943337267427854592069354237663837422962819010878617502650595529460677546518879718619223027078571350491508848932105540510860040601315099996599136575272623328105384017808536053885648092365310776952260643355743090423311390586618243840703118260176912565470907153945725389716387520043628457243287744668442758981475171511911499546915459890099011848770147512694433760962646363030460741861753022120341118669991560426226952604823454868143670788240309642995573318360341813771298403954955275124717930138524848140047894781100862475009941401781804695896184739597535672499431112972744304172222871639017641489829548193916095731181984573627820499257915121157280567962205442728686516722940491277914638149530629558738598269878923868141825873192897482116296411907231623609082702280025287016641451906514261753516326094820558284865183037510539937785973539892974362034312550075585221354732333756786876917363727352275885067958188896011537571980506355269412498280585737745299814888618987720843130999663179255556133003478172997778308763338590229450388864993165025305945950291156446096685547544950497724209102243532951339587061872492313929143150666215183339454862215856986601960952225368717689171733100498742841674084645005559578580558172081156373467868077043474850484452234884890280126877053032892943850955594717682896628869331523941519283703956043443316054334039171753358484279418516199729987220343028954791873911004286236433571787069453462186384853302306271463145592427429383836163936345185144070937054296096763716023324673929318355249881414081231203897315231941284531174161764887385610805099125042583309232534706019466309300838417489412815328211672648865192251545783709982924643614823500065236992033788340518807731954124562574430676447535575445415475155115424126141575649023982947264045104805851453143326238611254344561749541826996149266092884573583040093152496656404077494333630768686229591875505723115576045132776719577649234070146547951435527834801403975409215613159962048805979039437217912650108268966320990355250594957795185538889691638739170006493211664374287227360661009166482056785248267962254748284989337634339450502732194857975608715149859760072637156849868746692358746192873781198864

def mtTbl1 : ℕ :=
  47019377269480454521166796202192080156744065711735036093946347952767004178166580414619404295368579745368423344455535790100603109123390537936400225960413948962581621687896240522637224507828575758477348122963160208415363280019707798030312227824196717337790185717395916418423762630892356486721556684935395242242655380881735278103924507491220074215494864948237193336743268888774493345980793607658576031072279908827199617169076389079717958645323281016179818709079048488599328169773909178041633240974397968202014939199080074782861628813517480446814041710797362088721874292412610924971932914794744829065820199466143692449096160549866634244451028830859903821227197516746970309224205791267563642435736941887826948075693794624554993387028509493240776956208584434411860692637594036089966614095711161272105435981608377381144607228858817774450793912698847455415916555607019034083500899349912886394868338350453327774093298037392993433504406207597280692175066424492619856954023732875886564662514738469177910870729789243899044950287853879183418691181210878285231101036700100151414508269502245098124233070190053469547897760774577235770698102399593271162655193193957476985223492036712257749431013485290178478211681397648369247345388292166148967418443069436033227758903690611300571104323542755798659607690256745704048223356937811906901812522507499119816325884680128429414930035308617727448773107094740795077710133223136073869095879211266540025045454142227714273402171071850021340799192882712415932854056928546981481027058761833910719183669104334552971078105418563396729005197317434595455198423225121741383131471229927947192816248133586427443187849015737107549413424935126527158077965066107254978264211497991459716057550366538667467149331729680564242100553831218936152950209980367095340875554626045044692617010218436716011496177689098771128690845778680797633743867122647013095274725780944830685806699942979857065039374383182251894352648317546740277800802134495619784765839308048360886436228504133242391821029442021320785824709839288557939871848568478853674976586449828374721015575577500755912107008215616877942371537977250592465217501494476596646013665968299610229844538938537102475845028697881277855170478293763825855839970593953465379999204180118852028701969111321178259636873651288733402475391217235619235168374501742776377429882037867211054240465187117429963666812149948609470089166908137373460578060701671046353061001065363361458980124736849785156578915315986297433975631318618196385578565559675945283887514970128285989528491895455272049551633533549568868434294800776861820440284740201683631582990612434326281837372143020586730283321049857718401254006769185905928547295571068964877645468436792926179178129904421062959603943555162024905953132265157255676633632009746984550622036667104486428677740867300606974574613846691691872044708444809877070197891055585635328339550037999391320050543392023952524596784572269225284959126572782235634665016756558703862273061195884139779380596328806231736035721797991997669737880808459619362704653191799661568060072987654654856616781984208443051827764602432644035485520110072943493867303343013793170016895838628738593255718669242859264897481625692617506824675877736042226210948467670483325113361872196687111308073635022775675314429613933015903668217662347203062124530484670469915863016478562431872907472072484215182078562964686056702980853371129116257822974173146562154900851034549580227393374759618003760477605595814942770126797214058048745415621499127373802236774651089905397985785435008678188988822864768754886707713444253015593523785610450457700572151669117809906996046068924770275894574587343567828049561013704029831596751257055251293260536201138084574660285160953263055121584107724434811000661923945249155368281727159723365047403125032970220673888225572245782646966906281615168993162615074068355692096024318628012254714111933698744386774127984459137902317503626433574694186467203858015073588854119892455344696351896981695852457630664692241712987826641491919044620486003042041486682356199946038198002075211228550338374778105693917097153889377721900465013517155747395132969309537560978035296101661055425322940055799682286179031861795105025072029914041916541573599610991474411871616662373951557257234046266296994042243689726624133028814463792686875934351420717931190141035225285039671533694578383821607935139327039757478110317628076948178344153683254257312266752455500085431490959403211865811793250516229388783549826277530109771651146393886698263493184880213754527532229971979749235358679099073216397766746239937387284100726981239613808581397163458381318341109643982405335769576797713553013887499122358499989607131966421758977987519327140813865796054727783465795585888778623563482286776967515265610483918161789073742771878480259353104532852547982006748582759410000700611000164131651721626809939161073500296042512994783299699198660068915529581478701287186122510898670556473423060637195316441835791850145732920617361302926982849387757684688728107257833634026011512066962776600006305239311171371689307756961629604366923656683754049091697751594610677654754229041580387370134452683677489990966842202861990369794506322006939913578193225437675911747527197535049123238858145258488737244139553251600083920064606263478256660216430681730218358478743825995158294057583698246661012727950174283628507183383677681499369927251457001998755042861817269004002623665648803486505614411924300051299659367360553028987734996823289330059462632672399356895608442568540639666802753899810151285802244585211957596414415975363719677625886906719335101977566939212049245089747588720679448900955705192216039265750363940897215454424626411612798469690670001966354267335674448973393304709289669034969238758295871027661334664287596973019338630068304361329415416138332906649855374798645874878208521348867816242013100189121400078757214527896308530867903152688398698056779938928548100336467734056720449456109402668917319315060254373466372665385369333905516036568182868792012857544746168106776812209869651321320766810843144176101582

def mtTbl2 : ℕ :=
  41699208493931976625529188400394351709786335507395189477661707586706546248309738764564774337725008057090532104499917515358403258652446689563291230028888279625791110223205932603239575131394262461598612936253219819731619763331479367226208336967249214816149883976881064085908131147044904538342567545612491943293278421037608189251553081355407400390928237694584626133352957345279933094447040973664815469132555684403204841938199510843683927404760528929193834100003657357816186242538418642875551480752095910130962559792711312403586353559523701603842933905167194932093166462273517610723360245432256031004639430567954251084148657349705120182139376430789274598989074157930527449773322120182109806353924342061653216372861145882710481212809333379234117081590185598012685120747535927995828782868109818460703190834857482775768697588580505539868760692903007486238170089432146875394936147867501937530369820756172059664935658493641307631296448701964928894526015926649054796433978992701808965210131606897764369706315855533601584244579488381874990540155934367374128516289569805146243084850544409372995882476429938076490598445781142500154950152585306714166161740175807027221538314714980449108828622772583760126191341209729304948585683068798980199889482846971300076470514184098395554846544848960202397480158463684987026765878574081247233427742788313418013942810017102534011057217075922852835221073567030357867618299472286942682362350835355745409048076622032179702718801640609471667147409771442187599406864364049818820929704883422590440927293659053769691371956288176690905045607499076970802801000694036708112659118293305721189939930320668572105566276213433168398636888227888286205551777592310301037692620668875685440343010476250306957485603129072807670912367816978136089096864467679057254640360315850063396816477145914116299641428346035646163005304376250494224539741833494189636094801868659762216154323207873082423685739547694282443804254430781843149822834286285881104024403011436592834130612892638939943828275226047642938690661632371212159757473752268878648796139802735566016428976805230289312255382165191106270199874241335747792279113088550838195343924566533622007723445442229879079855687899815561924397561670013549470750652148954166270155324137879616021568035547430750424462310226519551120581448812349763781588821660767620494323336132409300996792168996444326210693579592530977531200777827046839654039720055304556712327479087956679645173462236347112962307429684696013218372929240415167766392808574088808802624105057154598390179449644807548507857268943316192448414153379152389959674627976948047089433382795929785823554160122737678770638363253283067192379106706101240307055601731583277096028006641888327591621045403759565911941717201916998475778225467950928417809645067034757084073421129522218193837492824938705495752998966512103031100530379506557340522404599218066245838432411528157966671785112845891304015905124605902169771306036948019586971487713250008126507079371306822076305412054137582816809609072096241194908646585219784085825934534999362133364485969895892519547301378022622364485050434955074667453156436048190829824688369252732587326730725431645168313440206898450855449341704944292344698997390557728450981379463162305395469244251776996159801077302494628876055923140549473233543831665966759672464236305868702640525312302175003752055422274545701296170176760433722497368707536665354825886812294294224576445955602395097452047900457009629461665807864769868030253633300661393482990348479650904180196471180418942820675122227440434897509103121938058498389240411987683109346169264955199797515424769380767550609463764547302095008505893862117945473583029081666142811173885444033590205387377902221742017666278788268397061504548920553590879469223565866010202759011356871815786484396598124279729728190120971246808171775856597371546452562366589430362494707163677807786996457375130556683334070944039407286313813249947848227625839982901853187194512012652783694574269856260691579815892835656465669279050233057845519103894117941252907089779576248524753275775297007192702448594130543196784224339730721584989254586739875107964357313792155510891957449046362842422861707801291440874806322458092027529436774567266953418422751364501937248112666692549911733086531668500343219582380109890112860066969167631578758177487056255954338959629912438578215552588958632640849021076397974326775747735948512966199545697733365112185600708058224321229343216717266351141210784526732233196738337651400063179642222481099630587207093517455680051397576679323870961164837565829160859683093377854723677845283853904471133752843186002772314721751018912564851370761940528024182790486441290863089713135401883576684133338471735342405544331833912154261259297343469974709145013039320814986515598227634912511348478485456402437120458512601238636957532362802417179158962895865464760653908400369551736700765937006132718366559075175430510895413256335152069607491066544966583050163814541858922439142410491896293277501595631015111233572012372593630760744689681287508346195021026082898201096692698246734408366963265758387647622002364337598722514347393265621060229328213109329492902577792104857138384513596628748457739129564038071555895620773725496728015519741412645601561929417452528440596470142688351922820626001797598811124635561364280288184856239606005461618779887365569203749526804667187863953412266184972910025551586428260676971506391909876904546773390919567866779304607501507160289448625642221619253273965052871920100087875821601281328110307000043431730386592827502270564902753317945919145184997532025192199199625778697834833271231865770828190884586765927015066503031797052441539701979562000436260014857982759457259973199383978389583927454845336085578861690083352579398797184748356666151225429438410407008160129091136906737526143936832134204879976376572113513340659834937215023290919450072730200594052387706882994567172147138209872709959533809015446381072079925889252133479655151264727041749182659317893842168102394497482155855699402392572727229223566950441828669946264028200964895

def drawChunk1 : List ℕ := [1]

def drawChunk2 : List ℕ := [6,1,5,1,3,4,5,4,1,0,0,6,0,2,6,2,4,0,1,2,2,4,6,5,5,0,5,4,4,2,3,4,3,0,2,5,1,4,1,0,4,4,6,5,6,3,5,6,6,0,4,0,6,0,5,2,4,1,4,2,1,0,3,1,1,6,3,3,6,1,4,1,3,0,6,4,1,6,1,1,4,6,6,3,0,4,3,4,2,0,1,4,3,3,3,3,2,3,6,0,3,1,1,6,1,4,1,5,6,5,2,4,3,6,2,5,1,5,2,4,6,4,3,3,2,1,6,1,4,2,4,5,1,5,1,2,3,2,3,1,4,3,5,1,3,4,2,1,3,0,0,6,3,0,5,6,2,5,5,1,0,3,3,2,2,2,6,6,1,0,2,6,2,3,6,1,0,6,6,2,6,1,0,3,5,0,4,1,2,2,5,3,2,0,6,5,1,1,0,2,4,1,3,4,3,1,2,0,0,5,3,4,2,1,0,6,0,4,0,3,2,1,5,3,2,6,5,3,5,3,1,6,0,1,1,1,6,0,5,6,6,2,3,5,4,0,2,0,1,2]

def drawChunk3 : List ℕ := [4,3,5,6,4,0,1,5,4,3,2,5,4,6,3,1,3,1,3,3,5,4,0,2,4,1,0,1,5,4,3,0,2,6,4,3,0,5,1,3,2,5,5,6,5,3,0,1,0,0,6,3,0,1,1,6,4,6,5,0,3,2,5,4,3,5,5,2,4,6,5,0,0,4,3,5,1,0,5,0,4,5,5,2,3,1,2,1,3,6,0,0,2,3,2,0,0,4,2,2,0,2,2,1,3,5,2,1,3,5,3,1,6,0,6,1,0,2,3,3,3,0,3,5,1,2,3,4,5,1,3,5,5,6,1,4,2,3,4,2,4,3,1,5,1,4,0,6,2,2,2,0,0,3,3,0,1,0,1,5,4,3,4,6,3,5,5,3,1,2,3,6,4,1,6,3,0,5,3,6,3,0,5,4,5,6,2,4,5,6,6,2,4,3,6,1,5,2,1,6,5,2,6,4,1,0,6,0,3,2,4,3,0,3,4,5,2,1,5,1,4,2,6,4,2,4,2,3,3,4,0,0,5,6,6,4,1,0,5,1,6,2,0,2,6,5,6,1,5,3]

def drawChunk4 : List ℕ := [6,5,1,4,4,6,0,4,4,1,0,4,6,3,6,4,4,3,1,6,1,3,4,2,5,5,2,4,3,0,3,4,4,6,4,2,1,5,3,3,3,6,6,3,6,6]

def drawChunk5 : List ℕ := [1]

def drawChunk6 : List ℕ := [4,4,0,1,2,6,6,2,5,6,6,5,0,3,6,0,0,2,4,0,2,6,1,3,3,3,6,2,0,0,2,3,0,1,0,0,5,2,5,6,1,0,4,3,5,3,5,2,0,3,3,2,2,5,1,2,3,6,1,1,2,5,2,1,2,4,3,2,2,1,2,5,1,4,5,1,1,2,6,3,4,1,0,0,0,6,0,3,3,5,5,0,3,1,0,1,3,0,4,5,6,5,0,0,4,3,6,0,1,2,6,4,1,4,2,0,2,1,0,1,2,0,0,6,2,4,3,2,0,1,4,3,5,0,4,5,0,1,3,0,6,4,6,3,4,3,4,2,3,5,5,5,0,0,5,2,3,5,4,4,2,4,0,5,2,2,1,0,2,0,0,4,0,2,5,4,3,3,0,1,4,5,4,6,1,3,2,6,4,5,1,5,1,5,1,0,6,5,2,6,5,5,5,3,3,6,6,3,4,2,3,3,3,5,5,3,4,6,5,2,5,2,6,0,0,2,3,5,5,6,5,0,4,6,2,5,2,6,4,5,1,6,3,5,2,1,5,3,0,4]

def drawChunk7 : List ℕ := [6,2,5,1,3,0,0,6,4,1,5,2,2,3,0,1,6,5,2,2,4,2,1,6,2,6,4,3,1,1,5,2,1,6,6,1,3,4,0,6,4,1,1,3,1,0,4,0,2,4,1,6,3,1,1,0,5,4,4,4,4,1,3,3,6,2,4,1,3,5,2,2,1,6,2,6,0,1,5,3,1,6,2,3,1,5,3,2,5,2,2,6,6,1,1,1,6,4,0,3,0,5,3,5,2,5,1,3,5,4,1,0,4,0,4,4,4,4,3,1,1,0,1,4,3,6,1,3,2,5,3,2,3,6,3,1,4,0,0,3,5,1,4,5,2,0,2,4,3,0,2,0,3,2,1,0,6,6,5,6,3,2,1,6,2,6,0,6,2,4,0,2,4,5,2,3,3,0,6,6,0,6,0,1,0,2,3,3,5,1,6,5,2,4,1,0,1,5,4,5,0,1,0]

def wSnap200 : List ℤ :=
  [1175727785988459940877429261029065891458345237264817702261218267527011789407350613993377558399043899752518716731507815219200000000000000000000000000000000000000000000000000000000000000000000000000000000000000000000000000000000000000000000000000000000000000000000000000000000000000000000000000000000000000000000000000000000000000000000000000000000000000000000000000000000000000000000000000000000000000000000000000000000000000000000000000000000000000000000000000000000000000000000000000000000000000000000000000000000000000000000000000000000000000000000000000000000000000000000000000000000000000000000000000000000000000000000000000000000000000000000000000000000000000000000000000000000000000000000000000000000000000000000000000000000000000000000000000000000000000000000000000000000000000000000000000000000, 848633546761069605617260991785819229748931310034069716693390354640340223681489797120000000000000000000000000000000000000000000000000000000000000000000000000000000000000000000000000000000000000000000000000000000000000000000000000000000000000000000000000000000000000000000000000000000000000000000000000000000000000000000000000000000000000000000000000000000000000000000000000000000000000000000000000000000000000000000000000000000000000000000000000000000000000000000000000000000000000000000000000000000000000000000000000000000000000000000000000000000000000000000000000000000000000000000000000000000000000000000000000000000000000000000000000000000000000000000000000000000000000000000000000000000000000000000000000000000000000000000000000000000000000000000000000000000000000000000000000000000000000000000000, 1042273372981793077453201177239563147196664951439866883442510812024426199812885413858548624273553964571801280810319872000000000000000000000000000000000000000000000000000000000000000000000000000000000000000000000000000000000000000000000000000000000000000000000000000000000000000000000000000000000000000000000000000000000000000000000000000000000000000000000000000000000000000000000000000000000000000000000000000000000000000000000000000000000000000000000000000000000000000000000000000000000000000000000000000000000000000000000000000000000000000000000000000000000000000000000000000000000000000000000000000000000000000000000000000000000000000000000000000000000000000000000000000000000000000000000000000000000000000000000000000000000000000000000000000000000000000000000000000000000000000000000000000000000000, 924632697060768876754285934208985198119622215625969822790079144583563496858810763519620219023439715683532800000000000000000000000000000000000000000000000000000000000000000000000000000000000000000000000000000000000000000000000000000000000000000000000000000000000000000000000000000000000000000000000000000000000000000000000000000000000000000000000000000000000000000000000000000000000000000000000000000000000000000000000000000000000000000000000000000000000000000000000000000000000000000000000000000000000000000000000000000000000000000000000000000000000000000000000000000000000000000000000000000000000000000000000000000000000000000000000000000000000000000000000000000000000000000000000000000000000000000000000000000000000000000000000000000000000000000000000000000000000000000000000000000000000000000000000, 727556041976683917954049213617412193630935096149286316646172393056743611904819200000000000000000000000000000000000000000000000000000000000000000000000000000000000000000000000000000000000000000000000000000000000000000000000000000000000000000000000000000000000000000000000000000000000000000000000000000000000000000000000000000000000000000000000000000000000000000000000000000000000000000000000000000000000000000000000000000000000000000000000000000000000000000000000000000000000000000000000000000000000000000000000000000000000000000000000000000000000000000000000000000000000000000000000000000000000000000000000000000000000000000000000000000000000000000000000000000000000000000000000000000000000000000000000000000000000000000000000000000000000000000000000000000000000000000000000000000000000000000000000000, 807465057921347713162859470302969959424491833875115108649774667481498621977626341010518835200000000000000000000000000000000000000000000000000000000000000000000000000000000000000000000000000000000000000000000000000000000000000000000000000000000000000000000000000000000000000000000000000000000000000000000000000000000000000000000000000000000000000000000000000000000000000000000000000000000000000000000000000000000000000000000000000000000000000000000000000000000000000000000000000000000000000000000000000000000000000000000000000000000000000000000000000000000000000000000000000000000000000000000000000000000000000000000000000000000000000000000000000000000000000000000000000000000000000000000000000000000000000000000000000000000000000000000000000000000000000000000000000000000000000000000000000000000000000, 988816684926068950981838821004095995634054125522382850172472844410736470476306529331457469647322742608982330834944000000000000000000000000000000000000000000000000000000000000000000000000000000000000000000000000000000000000000000000000000000000000000000000000000000000000000000000000000000000000000000000000000000000000000000000000000000000000000000000000000000000000000000000000000000000000000000000000000000000000000000000000000000000000000000000000000000000000000000000000000000000000000000000000000000000000000000000000000000000000000000000000000000000000000000000000000000000000000000000000000000000000000000000000000000000000000000000000000000000000000000000000000000000000000000000000000000000000000000000000000000000000000000000000000000000000000000000000000000000000000000000000000000000000000, 2540777621197199467873220666100099801057603573239328475586518508478264912774104123413947557742664275221891060440801843609600000000000000000000000000000000000000000000000000000000000000000000000000000000000000000000000000000000000000000000000000000000000000000000000000000000000000000000000000000000000000000000000000000000000000000000000000000000000000000000000000000000000000000000000000000000000000000000000000000000000000000000000000000000000000000000000000000000000000000000000000000000000000000000000000000000000000000000000000000000000000000000000000000000000000000000000000000000000000000000000000000000000000000000000000000000000000000000000000000000000000000000000000000000000000000000000000000000000000000000000000000000000000000000000000000000000000000000000000000000000000000000000000000000]

def wSnap400 : List ℤ :=
  [221097477136486051019077246434037847522228537043863772096938812386798926526502505724013236129264540995071192119675007303519148161026032893949393417107354190392012037246252489491168586006092715130880000000000000000000000000000000000000000000000000000000000000000000000000000000000000000000000000000000000000000000000000000000000000000000000000000000000000000000000000000000000000000000000000000000000000000000000000000000000000000000000000000000000000000000000000000000000000000000000000000000000000000000000000000000000000000000000000000000000000000000000000000000000000000000000000000000000000000000000000000000000000000000000000000000000000000000000000000000000000000000000000000000000000000000000000000000000000000000000000000000000000000000000000000000000000000000000000000000000000000000000000000000000000000000000000000000000000000000000000000000000000000000000000000000000000000000000000000000000000000000000000000000000000000000000000000000000000000000000000000000000000000000000000000000000000000000000000000000000000000000000000000000000000000000000000000000000000000000000000000000000000000000000000000000000000000000000000000000000000000000000000000000000000000000000000000000000000000000000000000000000000000000000000000000000000000000000000000000000000000000000000000000000000000000000000000000000000000000000000000000000000000000000000000000000000000000000000000000000000000000000000000000000000000000000000000000000000000000000000000000000000000000000000000000000000000000000000000000000000000000000000000000000000000000000000000000000000000000000000000000000000000000000000000000000000, 192295191056329082042472602858540754445666285225941663548295367155660914172851686018394064659330156614700964301427108462032118300077860004169981933141390657157237012409244710196456980480000000000000000000000000000000000000000000000000000000000000000000000000000000000000000000000000000000000000000000000000000000000000000000000000000000000000000000000000000000000000000000000000000000000000000000000000000000000000000000000000000000000000000000000000000000000000000000000000000000000000000000000000000000000000000000000000000000000000000000000000000000000000000000000000000000000000000000000000000000000000000000000000000000000000000000000000000000000000000000000000000000000000000000000000000000000000000000000000000000000000000000000000000000000000000000000000000000000000000000000000000000000000000000000000000000000000000000000000000000000000000000000000000000000000000000000000000000000000000000000000000000000000000000000000000000000000000000000000000000000000000000000000000000000000000000000000000000000000000000000000000000000000000000000000000000000000000000000000000000000000000000000000000000000000000000000000000000000000000000000000000000000000000000000000000000000000000000000000000000000000000000000000000000000000000000000000000000000000000000000000000000000000000000000000000000000000000000000000000000000000000000000000000000000000000000000000000000000000000000000000000000000000000000000000000000000000000000000000000000000000000000000000000000000000000000000000000000000000000000000000000000000000000000000000000000000000000000000000000000000000000000000000000000000000000000000000, 150419735808631298317309943906274383517235190700715105648992420631765066893208732428763881414261022607562433573779801670343531331994326119101270018709310668800000000000000000000000000000000000000000000000000000000000000000000000000000000000000000000000000000000000000000000000000000000000000000000000000000000000000000000000000000000000000000000000000000000000000000000000000000000000000000000000000000000000000000000000000000000000000000000000000000000000000000000000000000000000000000000000000000000000000000000000000000000000000000000000000000000000000000000000000000000000000000000000000000000000000000000000000000000000000000000000000000000000000000000000000000000000000000000000000000000000000000000000000000000000000000000000000000000000000000000000000000000000000000000000000000000000000000000000000000000000000000000000000000000000000000000000000000000000000000000000000000000000000000000000000000000000000000000000000000000000000000000000000000000000000000000000000000000000000000000000000000000000000000000000000000000000000000000000000000000000000000000000000000000000000000000000000000000000000000000000000000000000000000000000000000000000000000000000000000000000000000000000000000000000000000000000000000000000000000000000000000000000000000000000000000000000000000000000000000000000000000000000000000000000000000000000000000000000000000000000000000000000000000000000000000000000000000000000000000000000000000000000000000000000000000000000000000000000000000000000000000000000000000000000000000000000000000000000000000000000000000000000000000000000000000000000000000000000000000000000000000, 138950007844082630573651007604444189219977789272122472297396523281939773736243956635222398845398114710844332374441216335222043154420976220888969061923016675688470422540172852513996800000000000000000000000000000000000000000000000000000000000000000000000000000000000000000000000000000000000000000000000000000000000000000000000000000000000000000000000000000000000000000000000000000000000000000000000000000000000000000000000000000000000000000000000000000000000000000000000000000000000000000000000000000000000000000000000000000000000000000000000000000000000000000000000000000000000000000000000000000000000000000000000000000000000000000000000000000000000000000000000000000000000000000000000000000000000000000000000000000000000000000000000000000000000000000000000000000000000000000000000000000000000000000000000000000000000000000000000000000000000000000000000000000000000000000000000000000000000000000000000000000000000000000000000000000000000000000000000000000000000000000000000000000000000000000000000000000000000000000000000000000000000000000000000000000000000000000000000000000000000000000000000000000000000000000000000000000000000000000000000000000000000000000000000000000000000000000000000000000000000000000000000000000000000000000000000000000000000000000000000000000000000000000000000000000000000000000000000000000000000000000000000000000000000000000000000000000000000000000000000000000000000000000000000000000000000000000000000000000000000000000000000000000000000000000000000000000000000000000000000000000000000000000000000000000000000000000000000000000000000000000000000000000000000000000000000000000, 176484459466767964077880742118978801133548954947217475716931371212714709650382448143920780906869236289594833073470714637148739898534680689233084786403823998654168925144705138688000000000000000000000000000000000000000000000000000000000000000000000000000000000000000000000000000000000000000000000000000000000000000000000000000000000000000000000000000000000000000000000000000000000000000000000000000000000000000000000000000000000000000000000000000000000000000000000000000000000000000000000000000000000000000000000000000000000000000000000000000000000000000000000000000000000000000000000000000000000000000000000000000000000000000000000000000000000000000000000000000000000000000000000000000000000000000000000000000000000000000000000000000000000000000000000000000000000000000000000000000000000000000000000000000000000000000000000000000000000000000000000000000000000000000000000000000000000000000000000000000000000000000000000000000000000000000000000000000000000000000000000000000000000000000000000000000000000000000000000000000000000000000000000000000000000000000000000000000000000000000000000000000000000000000000000000000000000000000000000000000000000000000000000000000000000000000000000000000000000000000000000000000000000000000000000000000000000000000000000000000000000000000000000000000000000000000000000000000000000000000000000000000000000000000000000000000000000000000000000000000000000000000000000000000000000000000000000000000000000000000000000000000000000000000000000000000000000000000000000000000000000000000000000000000000000000000000000000000000000000000000000000000000000000000000000000000000000, 196043023644856698057787159641885837601739284181107979859542710473130380676884242562761962089892219335605236221168165870797058010031193527033326905321895953379468480163267434983806996893715660800000000000000000000000000000000000000000000000000000000000000000000000000000000000000000000000000000000000000000000000000000000000000000000000000000000000000000000000000000000000000000000000000000000000000000000000000000000000000000000000000000000000000000000000000000000000000000000000000000000000000000000000000000000000000000000000000000000000000000000000000000000000000000000000000000000000000000000000000000000000000000000000000000000000000000000000000000000000000000000000000000000000000000000000000000000000000000000000000000000000000000000000000000000000000000000000000000000000000000000000000000000000000000000000000000000000000000000000000000000000000000000000000000000000000000000000000000000000000000000000000000000000000000000000000000000000000000000000000000000000000000000000000000000000000000000000000000000000000000000000000000000000000000000000000000000000000000000000000000000000000000000000000000000000000000000000000000000000000000000000000000000000000000000000000000000000000000000000000000000000000000000000000000000000000000000000000000000000000000000000000000000000000000000000000000000000000000000000000000000000000000000000000000000000000000000000000000000000000000000000000000000000000000000000000000000000000000000000000000000000000000000000000000000000000000000000000000000000000000000000000000000000000000000000000000000000000000000000000000000000000000000000000000000000000000, 98375074667624086051718640167404645019809143679734780025985682915748757049939812808138821793848411206696113617976438783688697647780324123932098560000000000000000000000000000000000000000000000000000000000000000000000000000000000000000000000000000000000000000000000000000000000000000000000000000000000000000000000000000000000000000000000000000000000000000000000000000000000000000000000000000000000000000000000000000000000000000000000000000000000000000000000000000000000000000000000000000000000000000000000000000000000000000000000000000000000000000000000000000000000000000000000000000000000000000000000000000000000000000000000000000000000000000000000000000000000000000000000000000000000000000000000000000000000000000000000000000000000000000000000000000000000000000000000000000000000000000000000000000000000000000000000000000000000000000000000000000000000000000000000000000000000000000000000000000000000000000000000000000000000000000000000000000000000000000000000000000000000000000000000000000000000000000000000000000000000000000000000000000000000000000000000000000000000000000000000000000000000000000000000000000000000000000000000000000000000000000000000000000000000000000000000000000000000000000000000000000000000000000000000000000000000000000000000000000000000000000000000000000000000000000000000000000000000000000000000000000000000000000000000000000000000000000000000000000000000000000000000000000000000000000000000000000000000000000000000000000000000000000000000000000000000000000000000000000000000000000000000000000000000000000000000000000000000000000000000000000000000000000000000000000000000000000, 514395096813825034147526631616890196759816308044953794636019968402502399927916411372815805610204467690081723067933884706908714723603182975052210181303396072035678438751821312936714681689904187965440000000000000000000000000000000000000000000000000000000000000000000000000000000000000000000000000000000000000000000000000000000000000000000000000000000000000000000000000000000000000000000000000000000000000000000000000000000000000000000000000000000000000000000000000000000000000000000000000000000000000000000000000000000000000000000000000000000000000000000000000000000000000000000000000000000000000000000000000000000000000000000000000000000000000000000000000000000000000000000000000000000000000000000000000000000000000000000000000000000000000000000000000000000000000000000000000000000000000000000000000000000000000000000000000000000000000000000000000000000000000000000000000000000000000000000000000000000000000000000000000000000000000000000000000000000000000000000000000000000000000000000000000000000000000000000000000000000000000000000000000000000000000000000000000000000000000000000000000000000000000000000000000000000000000000000000000000000000000000000000000000000000000000000000000000000000000000000000000000000000000000000000000000000000000000000000000000000000000000000000000000000000000000000000000000000000000000000000000000000000000000000000000000000000000000000000000000000000000000000000000000000000000000000000000000000000000000000000000000000000000000000000000000000000000000000000000000000000000000000000000000000000000000000000000000000000000000000000000000000000000000000000000000000000000]

def wSnap600 : List ℤ :=
  [26821265728509528912543519407033907972644325215664703576987094325590313832682326774297099561082294293832245233907259782682530738650406982067469430536475680142049589607078694515645604593086296447294927829734839960755425115150329717296673587200000000000000000000000000000000000000000000000000000000000000000000000000000000000000000000000000000000000000000000000000000000000000000000000000000000000000000000000000000000000000000000000000000000000000000000000000000000000000000000000000000000000000000000000000000000000000000000000000000000000000000000000000000000000000000000000000000000000000000000000000000000000000000000000000000000000000000000000000000000000000000000000000000000000000000000000000000000000000000000000000000000000000000000000000000000000000000000000000000000000000000000000000000000000000000000000000000000000000000000000000000000000000000000000000000000000000000000000000000000000000000000000000000000000000000000000000000000000000000000000000000000000000000000000000000000000000000000000000000000000000000000000000000000000000000000000000000000000000000000000000000000000000000000000000000000000000000000000000000000000000000000000000000000000000000000000000000000000000000000000000000000000000000000000000000000000000000000000000000000000000000000000000000000000000000000000000000000000000000000000000000000000000000000000000000000000000000000000000000000000000000000000000000000000000000000000000000000000000000000000000000000000000000000000000000000000000000000000000000000000000000000000000000000000000000000000000000000000000000000000000000000000000000000000000000000000000000000000000000000000000000000000000000000000000000000000000000000000000000000000000000000000000000000000000000000000000000000000000000000000000000000000000000000000000000000000000000000000000000000000000000000000000000000000000000000000000000000000000000000000000000000000000000000000000000000000000000000000000000000000000000000000000000000000000000000000000000000000000000000000000000000000000000000000000000000000000000000000000000000000000000000000000000000000000000000000000000000000000000000000000000000000000000000000000000000000000000000000000000000000000000000000000000000000000000000000000000000000000000000000000000000000000000000000000000000000000000000000000000000000000000000000000000000000000000000000000000000000000000000000000000000000000000000000000000000000000000000000000000000000000, 36617473708109736190576142449546409380924210470872629882080535449046991045762797586707275772516417183091902360254170240418919070964796458840984579118547182983412053974583423855113640174543628863448605217016582917720076079902127970832425258120425618433653197153662182946323434234183680000000000000000000000000000000000000000000000000000000000000000000000000000000000000000000000000000000000000000000000000000000000000000000000000000000000000000000000000000000000000000000000000000000000000000000000000000000000000000000000000000000000000000000000000000000000000000000000000000000000000000000000000000000000000000000000000000000000000000000000000000000000000000000000000000000000000000000000000000000000000000000000000000000000000000000000000000000000000000000000000000000000000000000000000000000000000000000000000000000000000000000000000000000000000000000000000000000000000000000000000000000000000000000000000000000000000000000000000000000000000000000000000000000000000000000000000000000000000000000000000000000000000000000000000000000000000000000000000000000000000000000000000000000000000000000000000000000000000000000000000000000000000000000000000000000000000000000000000000000000000000000000000000000000000000000000000000000000000000000000000000000000000000000000000000000000000000000000000000000000000000000000000000000000000000000000000000000000000000000000000000000000000000000000000000000000000000000000000000000000000000000000000000000000000000000000000000000000000000000000000000000000000000000000000000000000000000000000000000000000000000000000000000000000000000000000000000000000000000000000000000000000000000000000000000000000000000000000000000000000000000000000000000000000000000000000000000000000000000000000000000000000000000000000000000000000000000000000000000000000000000000000000000000000000000000000000000000000000000000000000000000000000000000000000000000000000000000000000000000000000000000000000000000000000000000000000000000000000000000000000000000000000000000000000000000000000000000000000000000000000000000000000000000000000000000000000000000000000000000000000000000000000000000000000000000000000000000000000000000000000000000000000000000000000000000000000000000000000000000000000000000000000000000000000000000000000000000000000000000000000000000000000000000000000000000000000000000000000000000000000000000000000000000000000000000000000000000000000000000000000000000000000000000, 43836449500751949530386207477956905609841449704778579697886427885867374129019443446343331059847593523260335094579175942636016450748092435999812506168269083732840417942347693935685725385454154883724755417419176030803888906606559440880328938846831755096697429360149480152315886525555931803560680827500004583109394931843596288000000000000000000000000000000000000000000000000000000000000000000000000000000000000000000000000000000000000000000000000000000000000000000000000000000000000000000000000000000000000000000000000000000000000000000000000000000000000000000000000000000000000000000000000000000000000000000000000000000000000000000000000000000000000000000000000000000000000000000000000000000000000000000000000000000000000000000000000000000000000000000000000000000000000000000000000000000000000000000000000000000000000000000000000000000000000000000000000000000000000000000000000000000000000000000000000000000000000000000000000000000000000000000000000000000000000000000000000000000000000000000000000000000000000000000000000000000000000000000000000000000000000000000000000000000000000000000000000000000000000000000000000000000000000000000000000000000000000000000000000000000000000000000000000000000000000000000000000000000000000000000000000000000000000000000000000000000000000000000000000000000000000000000000000000000000000000000000000000000000000000000000000000000000000000000000000000000000000000000000000000000000000000000000000000000000000000000000000000000000000000000000000000000000000000000000000000000000000000000000000000000000000000000000000000000000000000000000000000000000000000000000000000000000000000000000000000000000000000000000000000000000000000000000000000000000000000000000000000000000000000000000000000000000000000000000000000000000000000000000000000000000000000000000000000000000000000000000000000000000000000000000000000000000000000000000000000000000000000000000000000000000000000000000000000000000000000000000000000000000000000000000000000000000000000000000000000000000000000000000000000000000000000000000000000000000000000000000000000000000000000000000000000000000000000000000000000000000000000000000000000000000000000000000000000000000000000000000000000000000000000000000000000000000000000000000000000000000000000000000000000000000000000000000000000000000000000000000000000000000000000000000000000000000000000000000000000000000000000000000000000000000000000000000000000000000000000, 51992078524977710967336372919222592374861239567565285955984966960723533589791161704684617346660023398694884487027454233600873408595553169016614025473793065383426552733896411341496960429569173218835055364668554748326492007393762025793121158319474348902669161261027290976234653330876979451404502250114875904359416503456284593356800000000000000000000000000000000000000000000000000000000000000000000000000000000000000000000000000000000000000000000000000000000000000000000000000000000000000000000000000000000000000000000000000000000000000000000000000000000000000000000000000000000000000000000000000000000000000000000000000000000000000000000000000000000000000000000000000000000000000000000000000000000000000000000000000000000000000000000000000000000000000000000000000000000000000000000000000000000000000000000000000000000000000000000000000000000000000000000000000000000000000000000000000000000000000000000000000000000000000000000000000000000000000000000000000000000000000000000000000000000000000000000000000000000000000000000000000000000000000000000000000000000000000000000000000000000000000000000000000000000000000000000000000000000000000000000000000000000000000000000000000000000000000000000000000000000000000000000000000000000000000000000000000000000000000000000000000000000000000000000000000000000000000000000000000000000000000000000000000000000000000000000000000000000000000000000000000000000000000000000000000000000000000000000000000000000000000000000000000000000000000000000000000000000000000000000000000000000000000000000000000000000000000000000000000000000000000000000000000000000000000000000000000000000000000000000000000000000000000000000000000000000000000000000000000000000000000000000000000000000000000000000000000000000000000000000000000000000000000000000000000000000000000000000000000000000000000000000000000000000000000000000000000000000000000000000000000000000000000000000000000000000000000000000000000000000000000000000000000000000000000000000000000000000000000000000000000000000000000000000000000000000000000000000000000000000000000000000000000000000000000000000000000000000000000000000000000000000000000000000000000000000000000000000000000000000000000000000000000000000000000000000000000000000000000000000000000000000000000000000000000000000000000000000000000000000000000000000000000000000000000000000000000000000000000000000000000000000000000000000000000000000000000000000000000000000000, 39096928897218715523512059974255048037768880162799825060012702464500521811348547891603671716196295352748470695576478076891253094983275091569047149800029554535064473118117860131490956165073865111608521827471078412471776824407468585326596067114426232695290103817980718830854779582648680448000000000000000000000000000000000000000000000000000000000000000000000000000000000000000000000000000000000000000000000000000000000000000000000000000000000000000000000000000000000000000000000000000000000000000000000000000000000000000000000000000000000000000000000000000000000000000000000000000000000000000000000000000000000000000000000000000000000000000000000000000000000000000000000000000000000000000000000000000000000000000000000000000000000000000000000000000000000000000000000000000000000000000000000000000000000000000000000000000000000000000000000000000000000000000000000000000000000000000000000000000000000000000000000000000000000000000000000000000000000000000000000000000000000000000000000000000000000000000000000000000000000000000000000000000000000000000000000000000000000000000000000000000000000000000000000000000000000000000000000000000000000000000000000000000000000000000000000000000000000000000000000000000000000000000000000000000000000000000000000000000000000000000000000000000000000000000000000000000000000000000000000000000000000000000000000000000000000000000000000000000000000000000000000000000000000000000000000000000000000000000000000000000000000000000000000000000000000000000000000000000000000000000000000000000000000000000000000000000000000000000000000000000000000000000000000000000000000000000000000000000000000000000000000000000000000000000000000000000000000000000000000000000000000000000000000000000000000000000000000000000000000000000000000000000000000000000000000000000000000000000000000000000000000000000000000000000000000000000000000000000000000000000000000000000000000000000000000000000000000000000000000000000000000000000000000000000000000000000000000000000000000000000000000000000000000000000000000000000000000000000000000000000000000000000000000000000000000000000000000000000000000000000000000000000000000000000000000000000000000000000000000000000000000000000000000000000000000000000000000000000000000000000000000000000000000000000000000000000000000000000000000000000000000000000000000000000000000000000000000000000000000000000000000000000000000000000000000000000000000000000000000000000, 46523502400670710523974268172736002433787877149450054672919654511782213833493198209574752935972599281602755714971642582565623121421953203106293928732830052774561920984791149143707268606902373120936062122162583126109814356178065116227416295795528326939624424816686294839899165500930912592937597728150400805717503494139651828461076480000000000000000000000000000000000000000000000000000000000000000000000000000000000000000000000000000000000000000000000000000000000000000000000000000000000000000000000000000000000000000000000000000000000000000000000000000000000000000000000000000000000000000000000000000000000000000000000000000000000000000000000000000000000000000000000000000000000000000000000000000000000000000000000000000000000000000000000000000000000000000000000000000000000000000000000000000000000000000000000000000000000000000000000000000000000000000000000000000000000000000000000000000000000000000000000000000000000000000000000000000000000000000000000000000000000000000000000000000000000000000000000000000000000000000000000000000000000000000000000000000000000000000000000000000000000000000000000000000000000000000000000000000000000000000000000000000000000000000000000000000000000000000000000000000000000000000000000000000000000000000000000000000000000000000000000000000000000000000000000000000000000000000000000000000000000000000000000000000000000000000000000000000000000000000000000000000000000000000000000000000000000000000000000000000000000000000000000000000000000000000000000000000000000000000000000000000000000000000000000000000000000000000000000000000000000000000000000000000000000000000000000000000000000000000000000000000000000000000000000000000000000000000000000000000000000000000000000000000000000000000000000000000000000000000000000000000000000000000000000000000000000000000000000000000000000000000000000000000000000000000000000000000000000000000000000000000000000000000000000000000000000000000000000000000000000000000000000000000000000000000000000000000000000000000000000000000000000000000000000000000000000000000000000000000000000000000000000000000000000000000000000000000000000000000000000000000000000000000000000000000000000000000000000000000000000000000000000000000000000000000000000000000000000000000000000000000000000000000000000000000000000000000000000000000000000000000000000000000000000000000000000000000000000000000000000000000000000000000000000000000000000000000000000000000000, 9010662656380539668042206960848090346766182144241252868185558366466945409809424858135479106958541157441289835537857130622308760235586149728885619708311983448181416255067946572453999369022669549083331259768215251201218841952975395620241064885359880585757681632724403385023654884478350350379799968300566914386792284160000000000000000000000000000000000000000000000000000000000000000000000000000000000000000000000000000000000000000000000000000000000000000000000000000000000000000000000000000000000000000000000000000000000000000000000000000000000000000000000000000000000000000000000000000000000000000000000000000000000000000000000000000000000000000000000000000000000000000000000000000000000000000000000000000000000000000000000000000000000000000000000000000000000000000000000000000000000000000000000000000000000000000000000000000000000000000000000000000000000000000000000000000000000000000000000000000000000000000000000000000000000000000000000000000000000000000000000000000000000000000000000000000000000000000000000000000000000000000000000000000000000000000000000000000000000000000000000000000000000000000000000000000000000000000000000000000000000000000000000000000000000000000000000000000000000000000000000000000000000000000000000000000000000000000000000000000000000000000000000000000000000000000000000000000000000000000000000000000000000000000000000000000000000000000000000000000000000000000000000000000000000000000000000000000000000000000000000000000000000000000000000000000000000000000000000000000000000000000000000000000000000000000000000000000000000000000000000000000000000000000000000000000000000000000000000000000000000000000000000000000000000000000000000000000000000000000000000000000000000000000000000000000000000000000000000000000000000000000000000000000000000000000000000000000000000000000000000000000000000000000000000000000000000000000000000000000000000000000000000000000000000000000000000000000000000000000000000000000000000000000000000000000000000000000000000000000000000000000000000000000000000000000000000000000000000000000000000000000000000000000000000000000000000000000000000000000000000000000000000000000000000000000000000000000000000000000000000000000000000000000000000000000000000000000000000000000000000000000000000000000000000000000000000000000000000000000000000000000000000000000000000000000000000000000000000000000000000000000000000000000000000000000000000000000000000000000000000, 118465174692880255160248699122071613598446355424048045159306807531689364940667587522876332410054693831497876464233804690642225463153210969757882049331596276672040336690543509606478076415360084921090626408772838100496174328725107219418762782469062902205482521470201790642861269356054792848710990339483774475366742033039766354908938240000000000000000000000000000000000000000000000000000000000000000000000000000000000000000000000000000000000000000000000000000000000000000000000000000000000000000000000000000000000000000000000000000000000000000000000000000000000000000000000000000000000000000000000000000000000000000000000000000000000000000000000000000000000000000000000000000000000000000000000000000000000000000000000000000000000000000000000000000000000000000000000000000000000000000000000000000000000000000000000000000000000000000000000000000000000000000000000000000000000000000000000000000000000000000000000000000000000000000000000000000000000000000000000000000000000000000000000000000000000000000000000000000000000000000000000000000000000000000000000000000000000000000000000000000000000000000000000000000000000000000000000000000000000000000000000000000000000000000000000000000000000000000000000000000000000000000000000000000000000000000000000000000000000000000000000000000000000000000000000000000000000000000000000000000000000000000000000000000000000000000000000000000000000000000000000000000000000000000000000000000000000000000000000000000000000000000000000000000000000000000000000000000000000000000000000000000000000000000000000000000000000000000000000000000000000000000000000000000000000000000000000000000000000000000000000000000000000000000000000000000000000000000000000000000000000000000000000000000000000000000000000000000000000000000000000000000000000000000000000000000000000000000000000000000000000000000000000000000000000000000000000000000000000000000000000000000000000000000000000000000000000000000000000000000000000000000000000000000000000000000000000000000000000000000000000000000000000000000000000000000000000000000000000000000000000000000000000000000000000000000000000000000000000000000000000000000000000000000000000000000000000000000000000000000000000000000000000000000000000000000000000000000000000000000000000000000000000000000000000000000000000000000000000000000000000000000000000000000000000000000000000000000000000000000000000000000000000000000000000000000000000000000000000000000000]

def wSnap800 : List ℤ :=
  [6170079878516401362583619230835999624140268538246850205163843176755751496886608193498574150886181206337156650775661868126009765585131242256445205772695133424892260500305594350855788718837193587502572019542303679180441830317865629100288834507200163404137521315449840952330751212839092483948416699189084701253806089527187186726835077178092052000027651126607924344408389670517342208000000000000000000000000000000000000000000000000000000000000000000000000000000000000000000000000000000000000000000000000000000000000000000000000000000000000000000000000000000000000000000000000000000000000000000000000000000000000000000000000000000000000000000000000000000000000000000000000000000000000000000000000000000000000000000000000000000000000000000000000000000000000000000000000000000000000000000000000000000000000000000000000000000000000000000000000000000000000000000000000000000000000000000000000000000000000000000000000000000000000000000000000000000000000000000000000000000000000000000000000000000000000000000000000000000000000000000000000000000000000000000000000000000000000000000000000000000000000000000000000000000000000000000000000000000000000000000000000000000000000000000000000000000000000000000000000000000000000000000000000000000000000000000000000000000000000000000000000000000000000000000000000000000000000000000000000000000000000000000000000000000000000000000000000000000000000000000000000000000000000000000000000000000000000000000000000000000000000000000000000000000000000000000000000000000000000000000000000000000000000000000000000000000000000000000000000000000000000000000000000000000000000000000000000000000000000000000000000000000000000000000000000000000000000000000000000000000000000000000000000000000000000000000000000000000000000000000000000000000000000000000000000000000000000000000000000000000000000000000000000000000000000000000000000000000000000000000000000000000000000000000000000000000000000000000000000000000000000000000000000000000000000000000000000000000000000000000000000000000000000000000000000000000000000000000000000000000000000000000000000000000000000000000000000000000000000000000000000000000000000000000000000000000000000000000000000000000000000000000000000000000000000000000000000000000000000000000000000000000000000000000000000000000000000000000000000000000000000000000000000000000000000000000000000000000000000000000000000000000000000000000000000000000000000000000000000000000000000000000000000000000000000000000000000000000000000000000000000000000000000000000000000000000000000000000000000000000000000000000000000000000000000000000000000000000000000000000000000000000000000000000000000000000000000000000000000000000000000000000000000000000000000000000000000000000000000000000000000000000000000000000000000000000000000000000000000000000000000000000000000000000000000000000000000000000000000000000000000000000000000000000000000000000000000000000000000000000000000000000000000000000000000000000000000000000000000000000000000000000000000000000000000000000000000000000000000000000000000000000000000000000000000000000000000000000000000000000000000000000000000000000000000000000000000000000000000000000000000000000000000000000000000000000000000000000000000000000000000000000000000000, 5292411236577290734271837276075763900955072816319277647070007842273841543802577284287938204068839478370541389046498805481615942813944617131276428025975319950716088887331609603188033895505628147145018912600974868153093462127614253099732692824803003052096818561046066260775225513115930460178087723647124767718299956508422698067339799805386001885506177714143786570170394510220761642068497032907805481775578634906501120000000000000000000000000000000000000000000000000000000000000000000000000000000000000000000000000000000000000000000000000000000000000000000000000000000000000000000000000000000000000000000000000000000000000000000000000000000000000000000000000000000000000000000000000000000000000000000000000000000000000000000000000000000000000000000000000000000000000000000000000000000000000000000000000000000000000000000000000000000000000000000000000000000000000000000000000000000000000000000000000000000000000000000000000000000000000000000000000000000000000000000000000000000000000000000000000000000000000000000000000000000000000000000000000000000000000000000000000000000000000000000000000000000000000000000000000000000000000000000000000000000000000000000000000000000000000000000000000000000000000000000000000000000000000000000000000000000000000000000000000000000000000000000000000000000000000000000000000000000000000000000000000000000000000000000000000000000000000000000000000000000000000000000000000000000000000000000000000000000000000000000000000000000000000000000000000000000000000000000000000000000000000000000000000000000000000000000000000000000000000000000000000000000000000000000000000000000000000000000000000000000000000000000000000000000000000000000000000000000000000000000000000000000000000000000000000000000000000000000000000000000000000000000000000000000000000000000000000000000000000000000000000000000000000000000000000000000000000000000000000000000000000000000000000000000000000000000000000000000000000000000000000000000000000000000000000000000000000000000000000000000000000000000000000000000000000000000000000000000000000000000000000000000000000000000000000000000000000000000000000000000000000000000000000000000000000000000000000000000000000000000000000000000000000000000000000000000000000000000000000000000000000000000000000000000000000000000000000000000000000000000000000000000000000000000000000000000000000000000000000000000000000000000000000000000000000000000000000000000000000000000000000000000000000000000000000000000000000000000000000000000000000000000000000000000000000000000000000000000000000000000000000000000000000000000000000000000000000000000000000000000000000000000000000000000000000000000000000000000000000000000000000000000000000000000000000000000000000000000000000000000000000000000000000000000000000000000000000000000000000000000000000000000000000000000000000000000000000000000000000000000000000000000000000000000000000000000000000000000000000000000000000000000000000000000000000000000000000000000000000000000000000000000000000000000000000000000000000000000000000000000000000000000000000000000000000000000000000000000000000000000000000000000000000000000000000000000000000000000000000000000000000000000000000000000000000000000000000000000000000000000000000000000000000000, 7896027627991893979356012037425972123152812928152918378786086704391635988434238417678629272712446697544377540167119784529705751116400728419245459365478691236631868046586564371279810206122664085936987226628766048457073174603014462355271901434090065522441323049233415219861751876152458231850276507451355051083685524899241532310273912693599654228291267201636414088379051864108142487469575539067610759284202353459200000000000000000000000000000000000000000000000000000000000000000000000000000000000000000000000000000000000000000000000000000000000000000000000000000000000000000000000000000000000000000000000000000000000000000000000000000000000000000000000000000000000000000000000000000000000000000000000000000000000000000000000000000000000000000000000000000000000000000000000000000000000000000000000000000000000000000000000000000000000000000000000000000000000000000000000000000000000000000000000000000000000000000000000000000000000000000000000000000000000000000000000000000000000000000000000000000000000000000000000000000000000000000000000000000000000000000000000000000000000000000000000000000000000000000000000000000000000000000000000000000000000000000000000000000000000000000000000000000000000000000000000000000000000000000000000000000000000000000000000000000000000000000000000000000000000000000000000000000000000000000000000000000000000000000000000000000000000000000000000000000000000000000000000000000000000000000000000000000000000000000000000000000000000000000000000000000000000000000000000000000000000000000000000000000000000000000000000000000000000000000000000000000000000000000000000000000000000000000000000000000000000000000000000000000000000000000000000000000000000000000000000000000000000000000000000000000000000000000000000000000000000000000000000000000000000000000000000000000000000000000000000000000000000000000000000000000000000000000000000000000000000000000000000000000000000000000000000000000000000000000000000000000000000000000000000000000000000000000000000000000000000000000000000000000000000000000000000000000000000000000000000000000000000000000000000000000000000000000000000000000000000000000000000000000000000000000000000000000000000000000000000000000000000000000000000000000000000000000000000000000000000000000000000000000000000000000000000000000000000000000000000000000000000000000000000000000000000000000000000000000000000000000000000000000000000000000000000000000000000000000000000000000000000000000000000000000000000000000000000000000000000000000000000000000000000000000000000000000000000000000000000000000000000000000000000000000000000000000000000000000000000000000000000000000000000000000000000000000000000000000000000000000000000000000000000000000000000000000000000000000000000000000000000000000000000000000000000000000000000000000000000000000000000000000000000000000000000000000000000000000000000000000000000000000000000000000000000000000000000000000000000000000000000000000000000000000000000000000000000000000000000000000000000000000000000000000000000000000000000000000000000000000000000000000000000000000000000000000000000000000000000000000000000000000000000000000000000000000000000000000000000000000000000000000000000000000000000000000000000000000000000000000000000000000000, 6592715697133560123249731781775540780683136709187822707000255813474074038877323266772991881918257829128361860076838149379806558724428242397609008266433275335483839517521031935561309584060171273167012572078652269879548308114116521183903769114559101002365730302127437481627903897204521257519397911802617711653730630751999779296349433143137376272202865741071475211904758896882811932434759680000000000000000000000000000000000000000000000000000000000000000000000000000000000000000000000000000000000000000000000000000000000000000000000000000000000000000000000000000000000000000000000000000000000000000000000000000000000000000000000000000000000000000000000000000000000000000000000000000000000000000000000000000000000000000000000000000000000000000000000000000000000000000000000000000000000000000000000000000000000000000000000000000000000000000000000000000000000000000000000000000000000000000000000000000000000000000000000000000000000000000000000000000000000000000000000000000000000000000000000000000000000000000000000000000000000000000000000000000000000000000000000000000000000000000000000000000000000000000000000000000000000000000000000000000000000000000000000000000000000000000000000000000000000000000000000000000000000000000000000000000000000000000000000000000000000000000000000000000000000000000000000000000000000000000000000000000000000000000000000000000000000000000000000000000000000000000000000000000000000000000000000000000000000000000000000000000000000000000000000000000000000000000000000000000000000000000000000000000000000000000000000000000000000000000000000000000000000000000000000000000000000000000000000000000000000000000000000000000000000000000000000000000000000000000000000000000000000000000000000000000000000000000000000000000000000000000000000000000000000000000000000000000000000000000000000000000000000000000000000000000000000000000000000000000000000000000000000000000000000000000000000000000000000000000000000000000000000000000000000000000000000000000000000000000000000000000000000000000000000000000000000000000000000000000000000000000000000000000000000000000000000000000000000000000000000000000000000000000000000000000000000000000000000000000000000000000000000000000000000000000000000000000000000000000000000000000000000000000000000000000000000000000000000000000000000000000000000000000000000000000000000000000000000000000000000000000000000000000000000000000000000000000000000000000000000000000000000000000000000000000000000000000000000000000000000000000000000000000000000000000000000000000000000000000000000000000000000000000000000000000000000000000000000000000000000000000000000000000000000000000000000000000000000000000000000000000000000000000000000000000000000000000000000000000000000000000000000000000000000000000000000000000000000000000000000000000000000000000000000000000000000000000000000000000000000000000000000000000000000000000000000000000000000000000000000000000000000000000000000000000000000000000000000000000000000000000000000000000000000000000000000000000000000000000000000000000000000000000000000000000000000000000000000000000000000000000000000000000000000000000000000000000000000000000000000000000000000000000000000000000000000000000000000000000000000000000000000000000000, 7991002488305326879020822211473495211390854273638189671708888400598128062126362729273158247211255818254250416396086439250530612160541982935532213291208714308853445086503855883677677651785271182140704122924198071608124827926785533360474167825126569517267468832015154131002146355992093470348536468548571593267270386606585830720496358647698876100162920315973092523670198049756689182692702298822402742955222085101087096832000000000000000000000000000000000000000000000000000000000000000000000000000000000000000000000000000000000000000000000000000000000000000000000000000000000000000000000000000000000000000000000000000000000000000000000000000000000000000000000000000000000000000000000000000000000000000000000000000000000000000000000000000000000000000000000000000000000000000000000000000000000000000000000000000000000000000000000000000000000000000000000000000000000000000000000000000000000000000000000000000000000000000000000000000000000000000000000000000000000000000000000000000000000000000000000000000000000000000000000000000000000000000000000000000000000000000000000000000000000000000000000000000000000000000000000000000000000000000000000000000000000000000000000000000000000000000000000000000000000000000000000000000000000000000000000000000000000000000000000000000000000000000000000000000000000000000000000000000000000000000000000000000000000000000000000000000000000000000000000000000000000000000000000000000000000000000000000000000000000000000000000000000000000000000000000000000000000000000000000000000000000000000000000000000000000000000000000000000000000000000000000000000000000000000000000000000000000000000000000000000000000000000000000000000000000000000000000000000000000000000000000000000000000000000000000000000000000000000000000000000000000000000000000000000000000000000000000000000000000000000000000000000000000000000000000000000000000000000000000000000000000000000000000000000000000000000000000000000000000000000000000000000000000000000000000000000000000000000000000000000000000000000000000000000000000000000000000000000000000000000000000000000000000000000000000000000000000000000000000000000000000000000000000000000000000000000000000000000000000000000000000000000000000000000000000000000000000000000000000000000000000000000000000000000000000000000000000000000000000000000000000000000000000000000000000000000000000000000000000000000000000000000000000000000000000000000000000000000000000000000000000000000000000000000000000000000000000000000000000000000000000000000000000000000000000000000000000000000000000000000000000000000000000000000000000000000000000000000000000000000000000000000000000000000000000000000000000000000000000000000000000000000000000000000000000000000000000000000000000000000000000000000000000000000000000000000000000000000000000000000000000000000000000000000000000000000000000000000000000000000000000000000000000000000000000000000000000000000000000000000000000000000000000000000000000000000000000000000000000000000000000000000000000000000000000000000000000000000000000000000000000000000000000000000000000000000000000000000000000000000000000000000000000000000000000000000000000000000000000000000000000000000000000000000000000000000000000000000000000000000000000000000000000000, 6261023123193442655172936599053132637779737052392260991068522538223206803359353429747192705701641878778167114718629224907541134550614110366708586585450970885670206306181904931771851767269424301772858302257546725149325807172029192295228350098945266059679725903081036198269213180057523339139194976691830591217163260531675242076581382921255306451637769883441105443365761629033128016189785701392640922091520000000000000000000000000000000000000000000000000000000000000000000000000000000000000000000000000000000000000000000000000000000000000000000000000000000000000000000000000000000000000000000000000000000000000000000000000000000000000000000000000000000000000000000000000000000000000000000000000000000000000000000000000000000000000000000000000000000000000000000000000000000000000000000000000000000000000000000000000000000000000000000000000000000000000000000000000000000000000000000000000000000000000000000000000000000000000000000000000000000000000000000000000000000000000000000000000000000000000000000000000000000000000000000000000000000000000000000000000000000000000000000000000000000000000000000000000000000000000000000000000000000000000000000000000000000000000000000000000000000000000000000000000000000000000000000000000000000000000000000000000000000000000000000000000000000000000000000000000000000000000000000000000000000000000000000000000000000000000000000000000000000000000000000000000000000000000000000000000000000000000000000000000000000000000000000000000000000000000000000000000000000000000000000000000000000000000000000000000000000000000000000000000000000000000000000000000000000000000000000000000000000000000000000000000000000000000000000000000000000000000000000000000000000000000000000000000000000000000000000000000000000000000000000000000000000000000000000000000000000000000000000000000000000000000000000000000000000000000000000000000000000000000000000000000000000000000000000000000000000000000000000000000000000000000000000000000000000000000000000000000000000000000000000000000000000000000000000000000000000000000000000000000000000000000000000000000000000000000000000000000000000000000000000000000000000000000000000000000000000000000000000000000000000000000000000000000000000000000000000000000000000000000000000000000000000000000000000000000000000000000000000000000000000000000000000000000000000000000000000000000000000000000000000000000000000000000000000000000000000000000000000000000000000000000000000000000000000000000000000000000000000000000000000000000000000000000000000000000000000000000000000000000000000000000000000000000000000000000000000000000000000000000000000000000000000000000000000000000000000000000000000000000000000000000000000000000000000000000000000000000000000000000000000000000000000000000000000000000000000000000000000000000000000000000000000000000000000000000000000000000000000000000000000000000000000000000000000000000000000000000000000000000000000000000000000000000000000000000000000000000000000000000000000000000000000000000000000000000000000000000000000000000000000000000000000000000000000000000000000000000000000000000000000000000000000000000000000000000000000000000000000000000000000000000000000000000000000000000000000000000000000000000000000000000000000000000000, 877099913610434221052147910935667681757532998223874928290721975000812065310120771037662304287021002849510338969982317007523619099380729579489979568356119864200674501567743717497329321857481529192230011729062595002843156003156593521380586368731653517971253372060221362612882009451031323919625289274827189176606238722852046819822465135836468781097146135792030832536311986150928848663267508224000000000000000000000000000000000000000000000000000000000000000000000000000000000000000000000000000000000000000000000000000000000000000000000000000000000000000000000000000000000000000000000000000000000000000000000000000000000000000000000000000000000000000000000000000000000000000000000000000000000000000000000000000000000000000000000000000000000000000000000000000000000000000000000000000000000000000000000000000000000000000000000000000000000000000000000000000000000000000000000000000000000000000000000000000000000000000000000000000000000000000000000000000000000000000000000000000000000000000000000000000000000000000000000000000000000000000000000000000000000000000000000000000000000000000000000000000000000000000000000000000000000000000000000000000000000000000000000000000000000000000000000000000000000000000000000000000000000000000000000000000000000000000000000000000000000000000000000000000000000000000000000000000000000000000000000000000000000000000000000000000000000000000000000000000000000000000000000000000000000000000000000000000000000000000000000000000000000000000000000000000000000000000000000000000000000000000000000000000000000000000000000000000000000000000000000000000000000000000000000000000000000000000000000000000000000000000000000000000000000000000000000000000000000000000000000000000000000000000000000000000000000000000000000000000000000000000000000000000000000000000000000000000000000000000000000000000000000000000000000000000000000000000000000000000000000000000000000000000000000000000000000000000000000000000000000000000000000000000000000000000000000000000000000000000000000000000000000000000000000000000000000000000000000000000000000000000000000000000000000000000000000000000000000000000000000000000000000000000000000000000000000000000000000000000000000000000000000000000000000000000000000000000000000000000000000000000000000000000000000000000000000000000000000000000000000000000000000000000000000000000000000000000000000000000000000000000000000000000000000000000000000000000000000000000000000000000000000000000000000000000000000000000000000000000000000000000000000000000000000000000000000000000000000000000000000000000000000000000000000000000000000000000000000000000000000000000000000000000000000000000000000000000000000000000000000000000000000000000000000000000000000000000000000000000000000000000000000000000000000000000000000000000000000000000000000000000000000000000000000000000000000000000000000000000000000000000000000000000000000000000000000000000000000000000000000000000000000000000000000000000000000000000000000000000000000000000000000000000000000000000000000000000000000000000000000000000000000000000000000000000000000000000000000000000000000000000000000000000000000000000000000000000000000000000000000000000000000000000000000000000000000000000000000000000000000000000000000000000, 19655829853079826308931775390191287502566007155416409656980246187859943097363473202704566839823353459905448163530381769852652120674291920912388409790333292299525203175350767973161894555505139347217036601474346021219490017137025982740211030639825391314936800725596917847159260036582872269331205722214946586450190401858260228238582912466257571031108618263020960756021901282561295431754195142543229953053261536733394108416000000000000000000000000000000000000000000000000000000000000000000000000000000000000000000000000000000000000000000000000000000000000000000000000000000000000000000000000000000000000000000000000000000000000000000000000000000000000000000000000000000000000000000000000000000000000000000000000000000000000000000000000000000000000000000000000000000000000000000000000000000000000000000000000000000000000000000000000000000000000000000000000000000000000000000000000000000000000000000000000000000000000000000000000000000000000000000000000000000000000000000000000000000000000000000000000000000000000000000000000000000000000000000000000000000000000000000000000000000000000000000000000000000000000000000000000000000000000000000000000000000000000000000000000000000000000000000000000000000000000000000000000000000000000000000000000000000000000000000000000000000000000000000000000000000000000000000000000000000000000000000000000000000000000000000000000000000000000000000000000000000000000000000000000000000000000000000000000000000000000000000000000000000000000000000000000000000000000000000000000000000000000000000000000000000000000000000000000000000000000000000000000000000000000000000000000000000000000000000000000000000000000000000000000000000000000000000000000000000000000000000000000000000000000000000000000000000000000000000000000000000000000000000000000000000000000000000000000000000000000000000000000000000000000000000000000000000000000000000000000000000000000000000000000000000000000000000000000000000000000000000000000000000000000000000000000000000000000000000000000000000000000000000000000000000000000000000000000000000000000000000000000000000000000000000000000000000000000000000000000000000000000000000000000000000000000000000000000000000000000000000000000000000000000000000000000000000000000000000000000000000000000000000000000000000000000000000000000000000000000000000000000000000000000000000000000000000000000000000000000000000000000000000000000000000000000000000000000000000000000000000000000000000000000000000000000000000000000000000000000000000000000000000000000000000000000000000000000000000000000000000000000000000000000000000000000000000000000000000000000000000000000000000000000000000000000000000000000000000000000000000000000000000000000000000000000000000000000000000000000000000000000000000000000000000000000000000000000000000000000000000000000000000000000000000000000000000000000000000000000000000000000000000000000000000000000000000000000000000000000000000000000000000000000000000000000000000000000000000000000000000000000000000000000000000000000000000000000000000000000000000000000000000000000000000000000000000000000000000000000000000000000000000000000000000000000000000000000000000000000000000000000000000000000000000000000000000000000000000000000000000000000000000000000]
/-- The 1000 sampled transitions (all draws after the initial state), in five
200-step segments. -/
def tseg1 : List ℕ := [6,1,5,1,3,4,5,4,1,0,0,6,0,2,6,2,4,0,1,2,2,4,6,5,5,0,5,4,4,2,3,4,3,0,2,5,1,4,1,0,4,4,6,5,6,3,5,6,6,0,4,0,6,0,5,2,4,1,4,2,1,0,3,1,1,6,3,3,6,1,4,1,3,0,6,4,1,6,1,1,4,6,6,3,0,4,3,4,2,0,1,4,3,3,3,3,2,3,6,0,3,1,1,6,1,4,1,5,6,5,2,4,3,6,2,5,1,5,2,4,6,4,3,3,2,1,6,1,4,2,4,5,1,5,1,2,3,2,3,1,4,3,5,1,3,4,2,1,3,0,0,6,3,0,5,6,2,5,5,1,0,3,3,2,2,2,6,6,1,0,2,6,2,3,6,1,0,6,6,2,6,1,0,3,5,0,4,1,2,2,5,3,2,0,6,5,1,1,0,2]

def tseg2 : List ℕ := [4,1,3,4,3,1,2,0,0,5,3,4,2,1,0,6,0,4,0,3,2,1,5,3,2,6,5,3,5,3,1,6,0,1,1,1,6,0,5,6,6,2,3,5,4,0,2,0,1,2,4,3,5,6,4,0,1,5,4,3,2,5,4,6,3,1,3,1,3,3,5,4,0,2,4,1,0,1,5,4,3,0,2,6,4,3,0,5,1,3,2,5,5,6,5,3,0,1,0,0,6,3,0,1,1,6,4,6,5,0,3,2,5,4,3,5,5,2,4,6,5,0,0,4,3,5,1,0,5,0,4,5,5,2,3,1,2,1,3,6,0,0,2,3,2,0,0,4,2,2,0,2,2,1,3,5,2,1,3,5,3,1,6,0,6,1,0,2,3,3,3,0,3,5,1,2,3,4,5,1,3,5,5,6,1,4,2,3,4,2,4,3,1,5,1,4,0,6,2,2]

def tseg3 : List ℕ := [2,0,0,3,3,0,1,0,1,5,4,3,4,6,3,5,5,3,1,2,3,6,4,1,6,3,0,5,3,6,3,0,5,4,5,6,2,4,5,6,6,2,4,3,6,1,5,2,1,6,5,2,6,4,1,0,6,0,3,2,4,3,0,3,4,5,2,1,5,1,4,2,6,4,2,4,2,3,3,4,0,0,5,6,6,4,1,0,5,1,6,2,0,2,6,5,6,1,5,3,6,5,1,4,4,6,0,4,4,1,0,4,6,3,6,4,4,3,1,6,1,3,4,2,5,5,2,4,3,0,3,4,4,6,4,2,1,5,3,3,3,6,6,3,6,6,1,4,4,0,1,2,6,6,2,5,6,6,5,0,3,6,0,0,2,4,0,2,6,1,3,3,3,6,2,0,0,2,3,0,1,0,0,5,2,5,6,1,0,4,3,5,3,5,2,0,3,3,2,2]

def tseg4 : List ℕ := [5,1,2,3,6,1,1,2,5,2,1,2,4,3,2,2,1,2,5,1,4,5,1,1,2,6,3,4,1,0,0,0,6,0,3,3,5,5,0,3,1,0,1,3,0,4,5,6,5,0,0,4,3,6,0,1,2,6,4,1,4,2,0,2,1,0,1,2,0,0,6,2,4,3,2,0,1,4,3,5,0,4,5,0,1,3,0,6,4,6,3,4,3,4,2,3,5,5,5,0,0,5,2,3,5,4,4,2,4,0,5,2,2,1,0,2,0,0,4,0,2,5,4,3,3,0,1,4,5,4,6,1,3,2,6,4,5,1,5,1,5,1,0,6,5,2,6,5,5,5,3,3,6,6,3,4,2,3,3,3,5,5,3,4,6,5,2,5,2,6,0,0,2,3,5,5,6,5,0,4,6,2,5,2,6,4,5,1,6,3,5,2,1,5,3,0,4,6,2,5]

def tseg5 : List ℕ := [1,3,0,0,6,4,1,5,2,2,3,0,1,6,5,2,2,4,2,1,6,2,6,4,3,1,1,5,2,1,6,6,1,3,4,0,6,4,1,1,3,1,0,4,0,2,4,1,6,3,1,1,0,5,4,4,4,4,1,3,3,6,2,4,1,3,5,2,2,1,6,2,6,0,1,5,3,1,6,2,3,1,5,3,2,5,2,2,6,6,1,1,1,6,4,0,3,0,5,3,5,2,5,1,3,5,4,1,0,4,0,4,4,4,4,3,1,1,0,1,4,3,6,1,3,2,5,3,2,3,6,3,1,4,0,0,3,5,1,4,5,2,0,2,4,3,0,2,0,3,2,1,0,6,6,5,6,3,2,1,6,2,6,0,6,2,4,0,2,4,5,2,3,3,0,6,6,0,6,0,1,0,2,3,3,5,1,6,5,2,4,1,0,1,5,4,5,0,1,0]

/-! ### Assembling the full seed-16 run -/

/-- All 1001 draws of the run. -/
def bairdDraws : List ℕ :=
  drawChunk1 ++ (drawChunk2 ++ (drawChunk3 ++ (drawChunk4 ++
    (drawChunk5 ++ (drawChunk6 ++ drawChunk7)))))

/-- The 1000 transitions of the run (every draw after the initial state). -/
def bairdTrans : List ℕ := tseg1 ++ (tseg2 ++ (tseg3 ++ (tseg4 ++ tseg5)))

/-- The initial weight vector, as integers. -/
def bairdInitWZ : List ℤ := [1, 1, 1, 1, 1, 1, 10, 1]

/-- The scaled integer weights after all 1000 steps (with the final state). -/
def bairdFinalZ : List ℤ × ℕ := runZ wSnap800 5 tseg5

/-- `train_all_runs` (`HW03Q01.py` lines 220-226): run `nruns` Baird runs;
run `r` reseeds the generator with the global counter value
`seedStart + r` (the counter starts at 16 and is incremented once per run).
Returns the final weight snapshot of each run. -/
def train_all_runs (seedStart nruns steps : ℕ) : List (List ℚ) :=
  (List.range nruns).map fun r => bairdRunFinalW (seedStart + r) steps

/-- `discount_rewards` (`HW03Q02.py` lines 194-206): `R = 0`; walk the reward
list backwards, set `R = r + gamma * R` and prepend `R` to the output, so the
returns come out in forward chronological order. -/
def discount_rewards {α : Type} [Mul α] [Add α] [Zero α] (gamma : α) (rewards : List α) :
    List α :=
  (rewards.reverse.foldl
    (fun (acc : α × List α) r =>
      let R := r + gamma * acc.1
      (R, R :: acc.2))
    (0, [])).2

/-! ## Policy buffers (`HW03Q02.py` class `Policy`, lines 215-323) -/

/-- The `agent` tag passed to `Policy.__init__` (`'rf'` or `'ac'`). -/
inductive AgentMode | rf | ac
  deriving DecidableEq, Repr

/-- The mutable state of a `Policy`: the approximator parameters (kept
abstract, of type `P`), the `self.actions` buffer of
(log-probability, value) pairs, the `self.rewards` buffer, and a ghost
counter of optimizer steps (`self.optimizer.step()` calls). -/
structure PolicyState (P : Type) where
  params : P
  actions : List (ℚ × ℚ)
  rewards : List ℚ
  updateCount : ℕ
  deriving DecidableEq, Repr

/-- `Policy.backprop_rf` (lines 260-289): one optimizer step computed from the
buffered log-probabilities and rewards (the loss/gradient computation is the
collaborating `optStep`), then `del self.rewards[:]`, `del self.actions[:]`. -/
def backprop_rf {P : Type} (optStep : P → List (ℚ × ℚ) → List ℚ → P)
    (p : PolicyState P) : PolicyState P :=
  { params := optStep p.params p.actions p.rewards
    actions := []
    rewards := []
    updateCount := p.updateCount + 1 }

/-- `Policy.backprop_ac` (lines 291-323): same buffer discipline with the
actor-critic loss. -/
def backprop_ac {P : Type} (optStep : P → List (ℚ × ℚ) → List ℚ → P)
    (p : PolicyState P) : PolicyState P :=
  { params := optStep p.params p.actions p.rewards
    actions := []
    rewards := []
    updateCount := p.updateCount + 1 }

/-- The dispatch in `Policy.__init__` (lines 232-235): `self.backprop` is
`backprop_ac` when `agent == 'ac'`, else `backprop_rf`. -/
def backprop_dispatch {P : Type} (agent : AgentMode)
    (optRf optAc : P → List (ℚ × ℚ) → List ℚ → P) :
    PolicyState P → PolicyState P :=
  match agent with
  | .ac => backprop_ac optAc
  | .rf => backprop_rf optRf

/-! ## Episode rollout and run orchestration (`HW03Q02.py` lines 332-413)

The gym environment is the opaque collaborator of the spec: each episode is
driven by a trace of `step` outcomes, one per loop iteration — either
`(reward, done)` or a raised error.  Actions and observations influence the
core only through the environment, so they do not appear in the trace;
`choose_action`'s buffer side effect is kept, with the appended
(log-probability, value) pair supplied by the collaborating `acts`
function. -/

/-- An error raised by the environment collaborator mid-episode. -/
structure EnvError where
  code : ℕ
  deriving DecidableEq, Repr

/-- `MAX_STEPS` (line 26), the configured per-episode step cap. -/
def MAX_STEPS : ℕ := 200

/-- Result of the `while not done` episode loop (lines 356-371): the loop
finishes only when the environment signals `done` (there is no step-cap check
in the loop); it is abandoned by a propagating environment error; and if the
trace never signals `done` the loop never exits (`hung`). -/
inductive EpOutcome (P : Type)
  | finished (steps : ℕ) (p : PolicyState P)
  | envFailed (e : EnvError) (p : PolicyState P)
  | hung
  deriving DecidableEq, Repr

/-- The episode loop body: `choose_action` appends to the actions buffer,
`env.step` yields `(reward, done)` or raises, the reward is appended and the
step counter incremented; the loop exits exactly when `done` is true. -/
def episodeLoop {P : Type} (act : ℕ → ℚ × ℚ) :
    List (Except EnvError (ℚ × Bool)) → PolicyState P → ℕ → EpOutcome P
  | [], _, _ => .hung
  | t :: rest, p, steps =>
    let p1 : PolicyState P := { p with actions := p.actions ++ [act steps] }
    match t with
    | .error e => .envFailed e p1
    | .ok (r, done) =>
      let p2 : PolicyState P := { p1 with rewards := p1.rewards ++ [r] }
      if done then .finished (steps + 1) p2
      else episodeLoop act rest p2 (steps + 1)

/-- Result of `one_run`: the per-episode step counts and final policy state,
or the `assert` failure on an invalid configuration (lines 339-340), or the
propagated environment failure (carrying the episode index and the policy
state holding the partial, never-applied trajectory), or non-termination. -/
inductive RunResult (P : Type)
  | ok (scores : List ℕ) (p : PolicyState P)
  | assertGamma
  | assertAlpha
  | envFailed (episode : ℕ) (e : EnvError) (p : PolicyState P)
  | hung
  deriving DecidableEq, Repr

/-- The episode loop of `one_run` (lines 352-374): run `n` more episodes
(current episode index `e`), each followed by exactly one `model.backprop()`
call, collecting `scores.append(steps)`. -/
def runEpisodes {P : Type} (bp : PolicyState P → PolicyState P)
    (traces : ℕ → List (Except EnvError (ℚ × Bool))) (acts : ℕ → ℕ → ℚ × ℚ) :
    ℕ → ℕ → List ℕ → PolicyState P → RunResult P
  | 0, _, scores, p => .ok scores p
  | n + 1, e, scores, p =>
    match episodeLoop (acts e) (traces e) p 0 with
    | .hung => .hung
    | .envFailed err p' => .envFailed e err p'
    | .finished steps p' => runEpisodes bp traces acts n (e + 1) (scores ++ [steps]) (bp p')

/-- `one_run` (lines 332-381): assert the configuration (`0 ≤ γ ≤ 1`,
`α > 0`), build a fresh policy (empty buffers), and run the episodes.  The
`seed` argument is accepted and, as in the source, never used. -/
def one_run {P : Type} (optRf optAc : P → List (ℚ × ℚ) → List ℚ → P)
    (agent : AgentMode) (gamma alpha : ℚ) (seed : ℕ) (episodes : ℕ)
    (traces : ℕ → List (Except EnvError (ℚ × Bool))) (acts : ℕ → ℕ → ℚ × ℚ)
    (p0 : P) : RunResult P :=
  if ¬ (0 ≤ gamma ∧ gamma ≤ 1) then .assertGamma
  else if ¬ (0 < alpha) then .assertAlpha
  else runEpisodes (backprop_dispatch agent optRf optAc) traces acts episodes 0 []
    ⟨p0, [], [], 0⟩

/-- The first failure inside the grid, tagged by its position
(size index, alpha index, run index). -/
structure RunsError (P : Type) where
  sizeIdx : ℕ
  alphaIdx : ℕ
  runIdx : ℕ
  err : RunResult P

/-- The inner `for run in tqdm(range(args.runs))` loop of `runs`
(lines 402-411) for one grid cell: draw the next seed from the shared stream,
call `one_run`, and collect its scores.  A failure propagates out at once (an
uncaught exception), carrying the score lists of the runs completed before it
(in execution order). -/
def runsInCell {P : Type} (doRun : ℕ → RunResult P) :
    ℕ → ℕ → Except (RunResult P × List (List ℕ)) (List (List ℕ))
  | 0, _ => .ok []
  | k + 1, r =>
    match doRun r with
    | .ok scores _ =>
      match runsInCell doRun k (r + 1) with
      | .ok rest => .ok (scores :: rest)
      | .error (e, done) => .error (e, scores :: done)
    | bad => .error (bad, [])

/-- The `for alpha_idx, alpha in enumerate(alphas)` loop. -/
def runsOverAlphas {P : Type} (doCell : ℕ → ℚ → Except (RunResult P × List (List ℕ)) (List (List ℕ))) :
    List ℚ → ℕ → Except (RunsError P × List (List ℕ)) (List (List (List ℕ)))
  | [], _ => .ok []
  | a :: rest, ai =>
    match doCell ai a with
    | .ok cell =>
      match runsOverAlphas doCell rest (ai + 1) with
      | .ok t => .ok (cell :: t)
      | .error (e, ex) => .error (e, cell ++ ex)
    | .error (e, ex) => .error (⟨0, ai, ex.length, e⟩, ex)

set_option linter.unusedVariables false in
/-- `runs` (lines 384-413): iterate the hyperparameter grid
(sizes outer, alphas inner, run repetitions innermost); for each run draw a
fresh seed from the shared random stream and call `one_run`.  On success the
result is the 4-dimensional score tensor
(`len(sizes) × len(alphas) × runs × episodes`); an uncaught failure aborts
the whole grid, and the error is returned with the flat list of score lists
of every run that had completed before it, in execution order. -/
def runs {P : Type} (optRf optAc : P → List (ℚ × ℚ) → List ℚ → P)
    (agent : AgentMode) (gamma : ℚ) (sizes : List ℕ) (alphas : List ℚ)
    (nruns episodes : ℕ) (seedStream : ℕ → ℕ)
    (traces : ℕ → ℕ → ℕ → ℕ → List (Except EnvError (ℚ × Bool)))
    (acts : ℕ → ℕ → ℕ → ℕ → ℕ → ℚ × ℚ) (p0 : ℕ → P) :
    Except (RunsError P × List (List ℕ)) (List (List (List (List ℕ)))) :=
  go sizes 0
where
  doRun (si : ℕ) (ai : ℕ) (alpha : ℚ) (hidden_size : ℕ) (r : ℕ) : RunResult P :=
    one_run optRf optAc agent gamma alpha
      (seedStream (((si * alphas.length) + ai) * nruns + r))
      episodes (traces si ai r) (acts si ai r) (p0 hidden_size)
  go : List ℕ → ℕ → Except (RunsError P × List (List ℕ)) (List (List (List (List ℕ))))
  | [], _ => .ok []
  | hs :: rest, si =>
    match runsOverAlphas (fun ai a => runsInCell (doRun si ai a hs) nruns 0) alphas 0 with
    | .ok rows =>
      match go rest (si + 1) with
      | .ok t => .ok (rows :: t)
      | .error (e, ex) => .error (e, rows.flatten ++ ex)
    | .error (e, ex) => .error ({ e with sizeIdx := si }, ex)

/-- The step count of a finished episode. -/
def epSteps {P : Type} : EpOutcome P → Option ℕ
  | .finished n _ => some n
  | _ => none

/-- A trace that signals `done` only on its 201st step. -/
def c4Trace : List (Except EnvError (ℚ × Bool)) :=
  List.replicate 200 (.ok (1, false)) ++ [.ok (1, true)]

/-! ## Return normalization (`HW03Q02.py` lines 269-271 and 299-301)

Torch scalars are modelled by real numbers; `.std()` is the unbiased sample
standard deviation (denominator `n - 1`), `eps = np.finfo(np.float32).eps`
is exactly `2 ^ (-23)`. -/

/-- `tensor.mean()`. -/
noncomputable def listMean (l : List ℝ) : ℝ := l.sum / l.length

/-- `tensor.var()` with torch's default Bessel correction (denominator
`n - 1`; for `n ≤ 1` the real-division-by-zero convention gives 0 where
torch gives NaN — such lists are excluded by every hypothesis below). -/
noncomputable def listVar (l : List ℝ) : ℝ :=
  ((l.map fun x => (x - listMean l) ^ 2).sum) / (l.length - 1)

/-- `tensor.std()`. -/
noncomputable def listStd (l : List ℝ) : ℝ := Real.sqrt (listVar l)

/-- `eps = np.finfo(np.float32).eps.item()`, exactly `2⁻²³` (line 425). -/
noncomputable def epsR : ℝ := 1 / 2 ^ 23

/-- `returns = (returns - returns.mean()) / (returns.std() + eps)`. -/
noncomputable def normalize_returns (returns : List ℝ) : List ℝ :=
  returns.map fun R => (R - listMean returns) / (listStd returns + epsR)

/-! ## The REINFORCE loss and the value head (`HW03Q02.py` lines 215-289)

`Policy` (lines 216-235) is a one-hidden-layer network with an actor head
(`action_head`) and a critic head (`value_head`).  Its parameters are
modelled as a single map from named coordinates to reals. -/

/-- One scalar parameter of the `Policy` network: `self.hidden` (weight and
bias), `self.action_head` (weight and bias), `self.value_head` (weight and
bias). -/
inductive Coord (n h m : ℕ) where
  | hiddenW : Fin h → Fin n → Coord n h m
  | hiddenB : Fin h → Coord n h m
  | actionW : Fin m → Fin h → Coord n h m
  | actionB : Fin m → Coord n h m
  | valueW : Fin h → Coord n h m
  | valueB : Coord n h m
  deriving DecidableEq

/-- Whether a coordinate belongs to the critic head `self.value_head`. -/
def Coord.isValue {n h m : ℕ} : Coord n h m → Bool
  | .valueW _ => true
  | .valueB => true
  | _ => false

/-- `F.relu`. -/
def relu (x : ℝ) : ℝ := max x 0

/-- `F.relu(self.hidden(x))` (line 238), coordinate `j`. -/
noncomputable def hiddenOut {n h m : ℕ} (θ : Coord n h m → ℝ) (x : Fin n → ℝ)
    (j : Fin h) : ℝ :=
  relu ((∑ i, θ (.hiddenW j i) * x i) + θ (.hiddenB j))

/-- `self.action_head(x)` (line 240), logit `k`. -/
noncomputable def actionLogit {n h m : ℕ} (θ : Coord n h m → ℝ) (x : Fin n → ℝ)
    (k : Fin m) : ℝ :=
  (∑ j, θ (.actionW k j) * hiddenOut θ x j) + θ (.actionB k)

/-- `F.softmax(self.action_head(x), dim=-1)` (line 240). -/
noncomputable def actionProb {n h m : ℕ} (θ : Coord n h m → ℝ) (x : Fin n → ℝ)
    (k : Fin m) : ℝ :=
  Real.exp (actionLogit θ x k) / ∑ k2, Real.exp (actionLogit θ x k2)

/-- `distr.log_prob(action)` (line 255): log of the softmax probability of
the sampled action. -/
noncomputable def logProb {n h m : ℕ} (θ : Coord n h m → ℝ) (x : Fin n → ℝ)
    (a : Fin m) : ℝ :=
  Real.log (actionProb θ x a)

/-- `self.value_head(x)` (line 241), the critic output. -/
noncomputable def valueOut {n h m : ℕ} (θ : Coord n h m → ℝ) (x : Fin n → ℝ) : ℝ :=
  (∑ j, θ (.valueW j) * hiddenOut θ x j) + θ .valueB

/-- The REINFORCE loss of `backprop_rf` (lines 266-280): the sum of
`-log_prob * R` over the episode, with `R` the normalized discounted
returns; the stored `value` entries are ignored. -/
noncomputable def lossRF {n h m : ℕ} (gamma : ℝ) (θ : Coord n h m → ℝ)
    (traj : List ((Fin n → ℝ) × Fin m)) (rewards : List ℝ) : ℝ :=
  (List.zipWith (fun (p : (Fin n → ℝ) × Fin m) R => -logProb θ p.1 p.2 * R)
    traj (normalize_returns (discount_rewards gamma rewards))).sum

/-- The gradient `loss.backward()` deposits in coordinate `c`: the derivative
of the loss along that coordinate at the current parameters. -/
noncomputable def rfGrad {n h m : ℕ} (gamma : ℝ)
    (traj : List ((Fin n → ℝ) × Fin m)) (rewards : List ℝ)
    (θ : Coord n h m → ℝ) (c : Coord n h m) : ℝ :=
  deriv (fun z => lossRF gamma (Function.update θ c z) traj rewards) (θ c)

/-- One coordinate of `torch.optim.Adam.step()` with torch's default
hyperparameters (β₁ = 0.9, β₂ = 0.999, eps = 10⁻⁸) at step count `t`:
returns the new weight and the new first and second moments. -/
noncomputable def adamStep (lr g mo vo : ℝ) (t : ℕ) (w : ℝ) : ℝ × ℝ × ℝ :=
  let mo2 := 9 / 10 * mo + 1 / 10 * g
  let vo2 := 999 / 1000 * vo + 1 / 1000 * g ^ 2
  let mhat := mo2 / (1 - (9 / 10 : ℝ) ^ t)
  let vhat := vo2 / (1 - (999 / 1000 : ℝ) ^ t)
  (w - lr * mhat / (Real.sqrt vhat + 1 / 10 ^ 8), mo2, vo2)

/-- One `backprop_rf` call as seen by the optimizer: every coordinate takes
an Adam step on its REINFORCE-loss gradient.  The state carries the
parameters and the per-coordinate Adam moments. -/
noncomputable def rfEpisodeUpdate {n h m : ℕ} (gamma lr : ℝ)
    (ep : List ((Fin n → ℝ) × Fin m) × List ℝ) (t : ℕ)
    (s : (Coord n h m → ℝ) × (Coord n h m → ℝ) × (Coord n h m → ℝ)) :
    (Coord n h m → ℝ) × (Coord n h m → ℝ) × (Coord n h m → ℝ) :=
  (fun c => (adamStep lr (rfGrad gamma ep.1 ep.2 s.1 c) (s.2.1 c) (s.2.2 c) t (s.1 c)).1,
   fun c => (adamStep lr (rfGrad gamma ep.1 ep.2 s.1 c) (s.2.1 c) (s.2.2 c) t (s.1 c)).2.1,
   fun c => (adamStep lr (rfGrad gamma ep.1 ep.2 s.1 c) (s.2.1 c) (s.2.2 c) t (s.1 c)).2.2)

/-- A REINFORCE training run: one `backprop_rf` per episode, Adam moments
initialized to zero and the step count to 1 (torch's initialization). -/
noncomputable def rfTrain {n h m : ℕ} (gamma lr : ℝ)
    (episodes : List (List ((Fin n → ℝ) × Fin m) × List ℝ))
    (θ0 : Coord n h m → ℝ) :
    (Coord n h m → ℝ) × (Coord n h m → ℝ) × (Coord n h m → ℝ) :=
  (episodes.foldl
    (fun st ep => (rfEpisodeUpdate gamma lr ep st.2 st.1, st.2 + 1))
    ((θ0, fun _ => 0, fun _ => 0), 1)).1

/-! ### Generic lemmas: resumption of the draw stream and of the run fold,
and the correspondence between the rational run and its integer scaling. -/

theorem choiceDraws_add (m n : ℕ) (s : MTState) :
    choiceDraws (m + n) s =
      ((choiceDraws m s).1 ++ (choiceDraws n (choiceDraws m s).2).1,
       (choiceDraws n (choiceDraws m s).2).2) := by
  induction m generalizing s with
  | zero => simp [choiceDraws]
  | succ k ih =>
    have h : k + 1 + n = (k + n) + 1 := by omega
    rw [h]
    simp only [choiceDraws]
    rw [ih]
    simp

theorem runZ_append (U : List ℤ) (s : ℕ) (l1 l2 : List ℕ) :
    runZ U s (l1 ++ l2) = runZ (runZ U s l1).1 (runZ U s l1).2 l2 := by
  simp [runZ, List.foldl_append]

theorem features_eq (s : ℕ) : features s = (featuresZ s).map (Int.cast : ℤ → ℚ) := by
  rcases s with _ | _ | _ | _ | _ | _ | _ | s <;> simp [features, featuresZ]

theorem npDot_cast (f : List ℤ) (u : List ℤ) (c : ℚ) :
    npDot (f.map (Int.cast : ℤ → ℚ)) (u.map (scaleCast c)) = (dotZ f u : ℚ) / c := by
  induction f generalizing u with
  | nil => simp [npDot, dotZ]
  | cons f0 fs ih =>
    cases u with
    | nil => simp [npDot, dotZ]
    | cons u0 us =>
      have hih := ih us
      simp only [npDot, dotZ, List.map_cons, List.zipWith_cons_cons, List.sum_cons] at hih ⊢
      rw [hih, scaleCast]
      push_cast
      ring

theorem step_scaled (old new : ℕ) (U : List ℤ) (c : ℚ) (hc : c ≠ 0) :
    semi_gradient_one_step (1 / 100) (99 / 100) (U.map (scaleCast c)) old new =
      ((stepZ U old new).map (scaleCast (10000 * c)), new) := by
  simp only [semi_gradient_one_step, stepZ, features_eq, Prod.mk.injEq, and_true]
  rw [npDot_cast, npDot_cast]
  rw [List.zipWith_map_left, List.zipWith_map_right, List.map_zipWith]
  refine congrArg (fun F => List.zipWith F U (featuresZ old)) ?_
  funext u fi
  simp only [scaleCast]
  by_cases h6 : new = 6 <;> simp only [h6, if_true, if_false] <;> push_cast <;>
    field_simp <;> ring

theorem run_scaled_pair (draws : List ℕ) (s : ℕ) (U : List ℤ) (c : ℚ) (hc : c ≠ 0) :
    (draws.foldl
      (fun (acc : List ℚ × ℕ) new => semi_gradient_one_step (1 / 100) (99 / 100) acc.1 acc.2 new)
      (U.map (scaleCast c), s)) =
      ((runZ U s draws).1.map (scaleCast ((10000 : ℚ) ^ draws.length * c)),
       (runZ U s draws).2) := by
  induction draws generalizing s U c with
  | nil => simp [runZ]
  | cons d ds ih =>
    have hc' : (10000 : ℚ) * c ≠ 0 := mul_ne_zero (by norm_num) hc
    simp only [List.foldl_cons]
    rw [step_scaled s d U c hc, ih d (stepZ U s d) (10000 * c) hc']
    have hpow : (10000 : ℚ) ^ ds.length * (10000 * c) = (10000 : ℚ) ^ (d :: ds).length * c := by
      simp [List.length_cons, pow_succ]
      ring
    rw [hpow]
    rfl

/-- The rational final weights of a run are the scaled-integer final weights
divided by `10000 ^ steps`. -/
theorem run_scaled (draws : List ℕ) (s : ℕ) (U : List ℤ) :
    semi_gradient_one_run (1 / 100) (99 / 100) (U.map (scaleCast 1)) s draws =
      (runZ U s draws).1.map (scaleCast ((10000 : ℚ) ^ draws.length)) := by
  have h := run_scaled_pair draws s U 1 one_ne_zero
  simp only [semi_gradient_one_run, h, mul_one]

theorem choiceDraws_glue {a b : ℕ} {s0 s1 s2 : MTState} {d1 d2 : List ℕ}
    (h1 : choiceDraws a s0 = (d1, s1)) (h2 : choiceDraws b s1 = (d2, s2)) :
    choiceDraws (a + b) s0 = (d1 ++ d2, s2) := by
  rw [choiceDraws_add, h1]
  simp [h2]

theorem runZ_glue {l1 l2 : List ℕ} {s s1 s2 : ℕ} {U U1 U2 : List ℤ}
    (h1 : runZ U s l1 = (U1, s1)) (h2 : runZ U1 s1 l2 = (U2, s2)) :
    runZ U s (l1 ++ l2) = (U2, s2) := by
  rw [runZ_append, h1]
  simp [h2]

theorem getD_map_zero (f : ℤ → ℚ) (hf : f 0 = 0) (l : List ℤ) (i : ℕ) :
    (l.map f).getD i 0 = f (l.getD i 0) := by
  induction l generalizing i with
  | nil => simp [hf]
  | cons a l ih =>
    cases i with
    | zero => simp
    | succ j => simpa using ih j

theorem scaleCast_zero (c : ℚ) : scaleCast c 0 = 0 := by simp [scaleCast]

theorem abs_cast_lt_abs_scaleCast (a b : ℤ) :
    (|(a : ℚ)| < |scaleCast ((10000 : ℚ) ^ 1000) b|) ↔
      (a.natAbs * 10000 ^ 1000 < b.natAbs) := by
  have hD : (0 : ℚ) < (10000 : ℚ) ^ 1000 := by positivity
  rw [scaleCast, abs_div, abs_of_pos hD, lt_div_iff₀ hD, ← Int.cast_abs, ← Int.cast_abs,
    Int.abs_eq_natAbs, Int.abs_eq_natAbs]
  constructor <;> intro h <;> exact_mod_cast h

theorem scaleCast_sub_cast (z w : ℤ) :
    scaleCast ((10000 : ℚ) ^ 1000) z - (w : ℚ) =
      scaleCast ((10000 : ℚ) ^ 1000) (z - w * ((10000 ^ 1000 : ℕ) : ℤ)) := by
  have hD : ((10000 : ℚ) ^ 1000) ≠ 0 := by positivity
  simp only [scaleCast]
  field_simp
  push_cast
  ring

theorem abs_scaleCast_lt_abs_scaleCast (x y : ℤ) :
    (|scaleCast ((10000 : ℚ) ^ 1000) x| < |scaleCast ((10000 : ℚ) ^ 1000) y|) ↔
      (x.natAbs < y.natAbs) := by
  have hD : (0 : ℚ) < (10000 : ℚ) ^ 1000 := by positivity
  rw [scaleCast, scaleCast, abs_div, abs_div, abs_of_pos hD, div_lt_div_iff_of_pos_right hD,
    ← Int.cast_abs, ← Int.cast_abs, Int.abs_eq_natAbs, Int.abs_eq_natAbs]
  constructor <;> intro h <;> exact_mod_cast h

/-! ### Chunked kernel evaluation of the seed-16 run

Each equation below is a bounded-depth `decide`: the two draws that trigger
an MT19937 twist are isolated in their own one-draw chunks (`drawsChunk1`,
`drawsChunk5`), every other chunk reads a fixed literal table.  The chunks
are stitched together by `choiceDraws_add` and `List.foldl_append`. -/

set_option maxRecDepth 2000000 in
theorem mtInit_16 : mtInit 16 = ⟨mtTbl0, 624⟩ := by decide

set_option maxRecDepth 2000000 in
set_option maxHeartbeats 16000000 in
theorem drawsChunk1 : choiceDraws 1 ⟨mtTbl0, 624⟩ = (drawChunk1, ⟨mtTbl1, 1⟩) := by decide

set_option maxRecDepth 2000000 in
set_option maxHeartbeats 16000000 in
theorem drawsChunk2 : choiceDraws 250 ⟨mtTbl1, 1⟩ = (drawChunk2, ⟨mtTbl1, 281⟩) := by decide

set_option maxRecDepth 2000000 in
set_option maxHeartbeats 16000000 in
theorem drawsChunk3 : choiceDraws 250 ⟨mtTbl1, 281⟩ = (drawChunk3, ⟨mtTbl1, 569⟩) := by decide

set_option maxRecDepth 2000000 in
set_option maxHeartbeats 16000000 in
theorem drawsChunk4 : choiceDraws 46 ⟨mtTbl1, 569⟩ = (drawChunk4, ⟨mtTbl1, 624⟩) := by decide

set_option maxRecDepth 2000000 in
set_option maxHeartbeats 16000000 in
theorem drawsChunk5 : choiceDraws 1 ⟨mtTbl1, 624⟩ = (drawChunk5, ⟨mtTbl2, 1⟩) := by decide

set_option maxRecDepth 2000000 in
set_option maxHeartbeats 16000000 in
theorem drawsChunk6 : choiceDraws 250 ⟨mtTbl2, 1⟩ = (drawChunk6, ⟨mtTbl2, 269⟩) := by decide

set_option maxRecDepth 2000000 in
set_option maxHeartbeats 16000000 in
theorem drawsChunk7 : choiceDraws 203 ⟨mtTbl2, 269⟩ = (drawChunk7, ⟨mtTbl2, 497⟩) := by decide

set_option maxRecDepth 2000000 in
set_option maxHeartbeats 64000000 in
theorem wChunk1 : runZ [1, 1, 1, 1, 1, 1, 10, 1] 1 tseg1 = (wSnap200, 2) := by decide

set_option maxRecDepth 2000000 in
set_option maxHeartbeats 64000000 in
theorem wChunk2 : runZ wSnap200 2 tseg2 = (wSnap400, 2) := by decide

set_option maxRecDepth 2000000 in
set_option maxHeartbeats 64000000 in
theorem wChunk3 : runZ wSnap400 2 tseg3 = (wSnap600, 2) := by decide

set_option maxRecDepth 2000000 in
set_option maxHeartbeats 64000000 in
theorem wChunk4 : runZ wSnap600 2 tseg4 = (wSnap800, 5) := by decide

theorem draws1001 : choiceDraws 1001 (mtInit 16) = (bairdDraws, ⟨mtTbl2, 497⟩) := by
  have h67 : choiceDraws (250 + 203) ⟨mtTbl2, 1⟩ =
      (drawChunk6 ++ drawChunk7, ⟨mtTbl2, 497⟩) :=
    choiceDraws_glue drawsChunk6 drawsChunk7
  have h567 : choiceDraws (1 + (250 + 203)) ⟨mtTbl1, 624⟩ =
      (drawChunk5 ++ (drawChunk6 ++ drawChunk7), ⟨mtTbl2, 497⟩) :=
    choiceDraws_glue drawsChunk5 h67
  have h4567 : choiceDraws (46 + (1 + (250 + 203))) ⟨mtTbl1, 569⟩ =
      (drawChunk4 ++ (drawChunk5 ++ (drawChunk6 ++ drawChunk7)), ⟨mtTbl2, 497⟩) :=
    choiceDraws_glue drawsChunk4 h567
  have h34 : choiceDraws (250 + (46 + (1 + (250 + 203)))) ⟨mtTbl1, 281⟩ =
      (drawChunk3 ++ (drawChunk4 ++ (drawChunk5 ++ (drawChunk6 ++ drawChunk7))),
        ⟨mtTbl2, 497⟩) :=
    choiceDraws_glue drawsChunk3 h4567
  have h24 : choiceDraws (250 + (250 + (46 + (1 + (250 + 203))))) ⟨mtTbl1, 1⟩ =
      (drawChunk2 ++ (drawChunk3 ++ (drawChunk4 ++ (drawChunk5 ++
        (drawChunk6 ++ drawChunk7)))), ⟨mtTbl2, 497⟩) :=
    choiceDraws_glue drawsChunk2 h34
  have hall : choiceDraws (1 + (250 + (250 + (46 + (1 + (250 + 203)))))) ⟨mtTbl0, 624⟩ =
      (bairdDraws, ⟨mtTbl2, 497⟩) :=
    choiceDraws_glue drawsChunk1 h24
  have h : (1001 : ℕ) = 1 + (250 + (250 + (46 + (1 + (250 + 203))))) := by norm_num
  rw [mtInit_16, h]
  exact hall

set_option maxRecDepth 100000 in
theorem bairdDraws_cons : bairdDraws = 1 :: bairdTrans := by decide

theorem wRunFull : runZ bairdInitWZ 1 bairdTrans = bairdFinalZ := by
  have h5 : runZ wSnap800 5 tseg5 = (bairdFinalZ.1, bairdFinalZ.2) := Prod.mk.eta.symm
  exact (runZ_glue wChunk1 (runZ_glue wChunk2 (runZ_glue wChunk3
    (runZ_glue wChunk4 h5)))).trans Prod.mk.eta

theorem scaleCast_one : scaleCast 1 = (Int.cast : ℤ → ℚ) := by
  funext z
  simp [scaleCast]

theorem bairdInitW_cast : bairdInitW = bairdInitWZ.map (Int.cast : ℤ → ℚ) := by
  norm_num [bairdInitW, bairdInitWZ]

set_option maxRecDepth 100000 in
theorem bairdTrans_length : bairdTrans.length = 1000 := by decide

set_option maxRecDepth 100000 in
/-- The rational final weight vector of the seed-16 run, written through the
integer-scaled computation. -/
theorem bairdFinal_eq :
    bairdRunFinalW 16 1000 = bairdFinalZ.1.map (scaleCast ((10000 : ℚ) ^ 1000)) := by
  have h2 : bairdRunFinalW 16 1000 =
      semi_gradient_one_run (1 / 100) (99 / 100) bairdInitW 1 bairdTrans := by
    unfold bairdRunFinalW
    rw [show (1000 : ℕ) + 1 = 1001 from rfl, draws1001, bairdDraws_cons]
  rw [h2, bairdInitW_cast, ← scaleCast_one, run_scaled, wRunFull, bairdTrans_length]

set_option maxRecDepth 2000000 in
set_option maxHeartbeats 64000000 in
/-- C1: running the semi-gradient TD(0) update of `HW03Q01.py` with
`alpha = 0.01`, `gamma = 0.99`, initial weights `[1,1,1,1,1,1,10,1]` and the
program's random source (`np.random.seed(16)` followed by uniform
`np.random.choice(7)` draws, modelled by MT19937), after 1000 update steps at
least 6 of the 8 weight coordinates have strictly increased in magnitude from
their initial value, while the coordinate tied to the terminal state's
dominant feature (`w7`, index 6) changes comparatively little: its change is
strictly smaller in magnitude than that of every other coordinate. -/
theorem c1_baird_divergence :
    6 ≤ ((List.range 8).countP fun i =>
      decide (|bairdInitW.getD i 0| < |(bairdRunFinalW 16 1000).getD i 0|)) ∧
    ∀ i < 8, i ≠ 6 →
      |(bairdRunFinalW 16 1000).getD 6 0 - bairdInitW.getD 6 0| <
        |(bairdRunFinalW 16 1000).getD i 0 - bairdInitW.getD i 0| := by
  have hgetF : ∀ j : ℕ, (bairdRunFinalW 16 1000).getD j 0 =
      scaleCast ((10000 : ℚ) ^ 1000) (bairdFinalZ.1.getD j 0) := fun j => by
    rw [bairdFinal_eq, getD_map_zero _ (scaleCast_zero _) _ j]
  have hgetI : ∀ j : ℕ, bairdInitW.getD j 0 = ((bairdInitWZ.getD j 0 : ℤ) : ℚ) := fun j => by
    rw [bairdInitW_cast, getD_map_zero _ (by simp) _ j]
  constructor
  · have hcong : ∀ i ∈ List.range 8,
        ((decide (|bairdInitW.getD i 0| < |(bairdRunFinalW 16 1000).getD i 0|)) = true ↔
        (decide ((bairdInitWZ.getD i 0).natAbs * 10000 ^ 1000 <
          (bairdFinalZ.1.getD i 0).natAbs)) = true) := by
      intro i _
      rw [decide_eq_true_eq, decide_eq_true_eq, hgetF i, hgetI i]
      exact abs_cast_lt_abs_scaleCast _ _
    rw [List.countP_congr hcong]
    decide
  · have hkey : ∀ i < 8, i ≠ 6 →
        (bairdFinalZ.1.getD 6 0 - bairdInitWZ.getD 6 0 * ((10000 ^ 1000 : ℕ) : ℤ)).natAbs <
          (bairdFinalZ.1.getD i 0 - bairdInitWZ.getD i 0 * ((10000 ^ 1000 : ℕ) : ℤ)).natAbs := by
      decide
    intro i hi hne
    rw [hgetF i, hgetF 6, hgetI i, hgetI 6, scaleCast_sub_cast, scaleCast_sub_cast,
      abs_scaleCast_lt_abs_scaleCast]
    exact hkey i hi hne

theorem zipWith_left_id (w F : List ℚ) (h : w.length ≤ F.length) :
    List.zipWith (fun a (_ : ℚ) => a) w F = w := by
  induction w generalizing F with
  | nil => rfl
  | cons a t ih =>
    cases F with
    | nil => exact absurd h (by simp)
    | cons b u =>
      rw [List.zipWith_cons_cons, ih u (by simpa using h)]

theorem features_length (s : ℕ) : (features s).length = 8 := by
  rcases s with _ | _ | _ | _ | _ | _ | _ | s <;> rfl

/-- C2: one TD(0) step stores
`w + alpha * (7 * [new_state = 6]) * (gamma * (F[new] . w) - F[old] . w) * F[old]`
and advances the current state to `new_state`; when `new_state` is not the
terminal state 6 (and `w` has its 8 coordinates) the weights are unchanged
while the state still advances. -/
theorem c2_step_contract (alpha gamma : ℚ) (w : List ℚ) (s s2 : ℕ) :
    (semi_gradient_one_step alpha gamma w s s2).1 =
      List.zipWith
        (fun wi fi => wi + alpha * (7 * (if s2 = 6 then 1 else 0)) *
          (gamma * npDot (features s2) w - npDot (features s) w) * fi)
        w (features s) ∧
    (semi_gradient_one_step alpha gamma w s s2).2 = s2 ∧
    (w.length = 8 → s2 ≠ 6 → (semi_gradient_one_step alpha gamma w s s2).1 = w) := by
  refine ⟨rfl, rfl, fun hw h6 => ?_⟩
  have hfun : (fun wi fi => wi + alpha * (7 * (if s2 = 6 then 1 else 0)) *
      (gamma * npDot (features s2) w - npDot (features s) w) * fi) =
      fun (wi : ℚ) (_ : ℚ) => wi := by
    funext wi fi
    rw [if_neg h6]
    ring
  show List.zipWith _ w (features s) = w
  rw [show (fun wi fi => wi + alpha * (7 * (if s2 = 6 then 1 else 0)) *
      (gamma * npDot (features s2) w - npDot (features s) w) * fi) =
      fun (wi : ℚ) (_ : ℚ) => wi from hfun]
  exact zipWith_left_id w (features s) (by rw [hw, features_length])

/-- Witness: the step from weights `[1,1,1,1,1,1,10,1]` in state 0 to the
non-terminal state 1 leaves the weights unchanged. -/
theorem c2_step_contract_witness :
    bairdInitW.length = 8 ∧ (1 : ℕ) ≠ 6 ∧
    (semi_gradient_one_step (1 / 100) (99 / 100) bairdInitW 0 1).1 = bairdInitW :=
  ⟨rfl, by decide,
    (c2_step_contract (1 / 100) (99 / 100) bairdInitW 0 1).2.2 rfl (by decide)⟩

/-- C7, Q01 side: requesting more runs only appends new runs — the first `k`
final snapshots are unchanged, because run `r` is always seeded with
`seedStart + r`. -/
theorem train_all_runs_take (seedStart k k2 steps : ℕ) (h : k ≤ k2) :
    (train_all_runs seedStart k2 steps).take k = train_all_runs seedStart k steps := by
  unfold train_all_runs
  rw [← List.map_take, List.take_range, Nat.min_eq_left h]

theorem discount_rewards_acc_head {α : Type} [Mul α] [Add α] [Zero α] (gamma : α)
    (xs : List α) (acc : α × List α) (h : acc.1 = acc.2.getD 0 0) :
    (xs.foldl (fun (acc : α × List α) r => let R := r + gamma * acc.1; (R, R :: acc.2)) acc).1 =
      (xs.foldl (fun (acc : α × List α) r => let R := r + gamma * acc.1; (R, R :: acc.2)) acc).2.getD 0 0 := by
  induction xs generalizing acc with
  | nil => exact h
  | cons x xs ih => exact ih _ (by simp)

/-- The defining recurrence of `discount_rewards`, one step at a time. -/
theorem discount_rewards_cons {α : Type} [Mul α] [Add α] [Zero α] (gamma : α)
    (r : α) (rest : List α) :
    discount_rewards gamma (r :: rest) =
      (r + gamma * (discount_rewards gamma rest).getD 0 0) :: discount_rewards gamma rest := by
  have hh := discount_rewards_acc_head gamma rest.reverse ((0 : α), ([] : List α)) (by simp)
  simp only [discount_rewards, List.reverse_cons, List.foldl_append, List.foldl_cons,
    List.foldl_nil]
  rw [← hh]

theorem discount_rewards_length {α : Type} [Mul α] [Add α] [Zero α] (gamma : α)
    (rewards : List α) : (discount_rewards gamma rewards).length = rewards.length := by
  induction rewards with
  | nil => rfl
  | cons r rest ih => rw [discount_rewards_cons] ; simp [ih]

theorem discount_rewards_getD {γ : ℚ} (rewards : List ℚ) (t : ℕ) :
    (discount_rewards γ rewards).getD t 0 =
      rewards.getD t 0 + γ * (discount_rewards γ rewards).getD (t + 1) 0 := by
  induction rewards generalizing t with
  | nil => simp [discount_rewards]
  | cons r rest ih =>
    rw [discount_rewards_cons]
    cases t with
    | zero => simp [discount_rewards_cons]
    | succ u => simpa using ih u

theorem c3_statement (γ : ℚ) (rw : List ℚ) :
    (discount_rewards γ rw).length = rw.length ∧
    (∀ t : ℕ, (discount_rewards γ rw).getD t 0 =
      rw.getD t 0 + γ * (discount_rewards γ rw).getD (t + 1) 0) ∧
    discount_rewards (1 / 2 : ℚ) [1, 1, 1] = [7 / 4, 3 / 2, 1] ∧
    discount_rewards γ ([] : List ℚ) = [] := by
  refine ⟨discount_rewards_length γ rw, fun t => discount_rewards_getD rw t, ?_, rfl⟩
  rw [discount_rewards_cons, discount_rewards_cons, discount_rewards_cons]
  norm_num [discount_rewards]

theorem c6_statement {P : Type} (agent : AgentMode)
    (optRf optAc : P → List (ℚ × ℚ) → List ℚ → P) (p : PolicyState P) :
    (backprop_dispatch agent optRf optAc p).actions = [] ∧
    (backprop_dispatch agent optRf optAc p).rewards = [] ∧
    (backprop_dispatch agent optRf optAc p).updateCount = p.updateCount + 1 := by
  cases agent <;> exact ⟨rfl, rfl, rfl⟩

/-! ### C4: episode termination and metric-tensor shape -/

set_option maxRecDepth 10000 in
theorem c4_counterexample :
    epSteps (episodeLoop (P := Unit) (fun _ => (0, 0)) c4Trace ⟨(), [], [], 0⟩ 0) =
      some (MAX_STEPS + 1) ∧ ¬ (MAX_STEPS + 1 ≤ MAX_STEPS) := by
  constructor
  · decide
  · decide

theorem episodeLoop_steps_pos {P : Type} (act : ℕ → ℚ × ℚ)
    (tr : List (Except EnvError (ℚ × Bool))) (p : PolicyState P) (n steps : ℕ)
    (p' : PolicyState P) (h : episodeLoop act tr p n = .finished steps p') : n < steps := by
  induction tr generalizing p n with
  | nil => simp [episodeLoop] at h
  | cons t rest ih =>
    simp only [episodeLoop] at h
    rcases t with e | ⟨r, done⟩
    · simp at h
    · by_cases hd : done
      · simp [hd] at h
        omega
      · simp [hd] at h
        exact Nat.lt_of_succ_lt (ih _ _ h)

theorem runEpisodes_ok {P : Type} (bp : PolicyState P → PolicyState P)
    (traces : ℕ → List (Except EnvError (ℚ × Bool))) (acts : ℕ → ℕ → ℚ × ℚ)
    (n : ℕ) : ∀ (e : ℕ) (scores : List ℕ) (p : PolicyState P) (s' : List ℕ)
    (p' : PolicyState P), runEpisodes bp traces acts n e scores p = .ok s' p' →
    s'.length = scores.length + n ∧ (∀ x ∈ s', x ∈ scores ∨ 1 ≤ x) := by
  induction n with
  | zero =>
    intro e scores p s' p' h
    simp only [runEpisodes, RunResult.ok.injEq] at h
    exact ⟨by simp [← h.1], fun x hx => .inl (h.1 ▸ hx)⟩
  | succ k ih =>
    intro e scores p s' p' h
    simp only [runEpisodes] at h
    rcases he : episodeLoop (acts e) (traces e) p 0 with steps | _ | _ <;> rw [he] at h
    · rcases ih (e + 1) _ _ _ _ h with ⟨hlen, hmem⟩
      have hpos := episodeLoop_steps_pos _ _ _ _ _ _ he
      refine ⟨by rw [hlen]; simp [List.length_append]; omega, fun x hx => ?_⟩
      rcases hmem x hx with hin | hge
      · rcases List.mem_append.mp hin with h1 | h1
        · exact .inl h1
        · simp at h1
          omega
      · exact .inr hge
    · exact absurd h (by simp)
    · exact absurd h (by simp)

theorem one_run_ok {P : Type} (optRf optAc : P → List (ℚ × ℚ) → List ℚ → P)
    (agent : AgentMode) (gamma alpha : ℚ) (seed episodes : ℕ)
    (traces : ℕ → List (Except EnvError (ℚ × Bool))) (acts : ℕ → ℕ → ℚ × ℚ) (p0 : P)
    (s : List ℕ) (p' : PolicyState P)
    (h : one_run optRf optAc agent gamma alpha seed episodes traces acts p0 = .ok s p') :
    s.length = episodes ∧ ∀ x ∈ s, 1 ≤ x := by
  simp only [one_run] at h
  by_cases h1 : ¬ (0 ≤ gamma ∧ gamma ≤ 1)
  · simp [h1] at h
  by_cases h2 : ¬ (0 < alpha)
  · simp [h1, h2] at h
  simp only [h1, h2, if_false] at h
  rcases runEpisodes_ok _ _ _ _ _ _ _ _ _ h with ⟨hlen, hmem⟩
  exact ⟨by simpa using hlen, fun x hx => (hmem x hx).resolve_left (by simp)⟩

theorem runsInCell_ok {P : Type} (doRun : ℕ → RunResult P)
    (Q : List ℕ → Prop) (hQ : ∀ r s p, doRun r = .ok s p → Q s) :
    ∀ (k r : ℕ) (cells : List (List ℕ)), runsInCell doRun k r = .ok cells →
    cells.length = k ∧ ∀ c ∈ cells, Q c := by
  intro k
  induction k with
  | zero =>
    intro r cells h
    simp only [runsInCell, Except.ok.injEq] at h
    simp [← h]
  | succ m ih =>
    intro r cells h
    simp only [runsInCell] at h
    cases hr : doRun r with
    | ok s p =>
      rw [hr] at h
      rcases hc : runsInCell doRun m (r + 1) with ⟨e, done⟩ | rest <;> rw [hc] at h
      · exact absurd h (by simp)
      · simp only [Except.ok.injEq] at h
        rcases ih (r + 1) rest hc with ⟨hlen, hmem⟩
        subst h
        refine ⟨by simp [hlen], fun c hcm => ?_⟩
        rcases List.mem_cons.mp hcm with h1 | h1
        · exact h1 ▸ hQ r s p hr
        · exact hmem c h1
    | assertGamma => rw [hr] at h; exact absurd h (by simp)
    | assertAlpha => rw [hr] at h; exact absurd h (by simp)
    | envFailed e err pp => rw [hr] at h; exact absurd h (by simp)
    | hung => rw [hr] at h; exact absurd h (by simp)

theorem runsOverAlphas_ok {P : Type}
    (doCell : ℕ → ℚ → Except (RunResult P × List (List ℕ)) (List (List ℕ)))
    (Q : List (List ℕ) → Prop) (hQ : ∀ ai a cell, doCell ai a = .ok cell → Q cell) :
    ∀ (alphas : List ℚ) (ai : ℕ) (rows : List (List (List ℕ))),
    runsOverAlphas doCell alphas ai = .ok rows →
    rows.length = alphas.length ∧ ∀ row ∈ rows, Q row := by
  intro alphas
  induction alphas with
  | nil =>
    intro ai rows h
    simp only [runsOverAlphas, Except.ok.injEq] at h
    simp [← h]
  | cons a rest ih =>
    intro ai rows h
    simp only [runsOverAlphas] at h
    rcases hcell : doCell ai a with e | cell <;> rw [hcell] at h
    · exact absurd h (by simp)
    rcases hrest : runsOverAlphas doCell rest (ai + 1) with e | t <;> rw [hrest] at h
    · exact absurd h (by simp)
    simp only [Except.ok.injEq] at h
    rcases ih (ai + 1) t hrest with ⟨hlen, hmem⟩
    subst h
    refine ⟨by simp [hlen], fun row hr => ?_⟩
    rcases List.mem_cons.mp hr with h1 | h1
    · exact h1 ▸ hQ ai a cell hcell
    · exact hmem row h1

theorem runs_go_ok {P : Type} (optRf optAc : P → List (ℚ × ℚ) → List ℚ → P)
    (agent : AgentMode) (gamma : ℚ) (alphas : List ℚ) (nruns episodes : ℕ)
    (seedStream : ℕ → ℕ) (traces : ℕ → ℕ → ℕ → ℕ → List (Except EnvError (ℚ × Bool)))
    (acts : ℕ → ℕ → ℕ → ℕ → ℕ → ℚ × ℚ) (p0 : ℕ → P) :
    ∀ (sizes : List ℕ) (si : ℕ) (t : List (List (List (List ℕ)))),
    runs.go optRf optAc agent gamma alphas nruns episodes seedStream traces acts p0
      sizes si = .ok t →
    t.length = sizes.length ∧ ∀ row ∈ t, row.length = alphas.length ∧
      ∀ cell ∈ row, cell.length = nruns ∧
        ∀ rs ∈ cell, rs.length = episodes ∧ ∀ x ∈ rs, 1 ≤ x := by
  intro sizes
  induction sizes with
  | nil =>
    intro si t h
    simp only [runs.go, Except.ok.injEq] at h
    simp [← h]
  | cons hs rest ih =>
    intro si t h
    simp only [runs.go] at h
    rcases halpha : runsOverAlphas
        (fun ai a => runsInCell (runs.doRun optRf optAc agent gamma alphas nruns
          episodes seedStream traces acts p0 si ai a hs) nruns 0) alphas 0 with ⟨e, ex⟩ | rows <;>
      rw [halpha] at h
    · exact absurd h (by simp)
    rcases hrest : runs.go optRf optAc agent gamma alphas nruns episodes seedStream
        traces acts p0 rest (si + 1) with ⟨e, ex⟩ | t' <;> rw [hrest] at h
    · exact absurd h (by simp)
    simp only [Except.ok.injEq] at h
    subst h
    rcases ih (si + 1) t' hrest with ⟨hlen, hmem⟩
    have hrows := runsOverAlphas_ok _
      (fun cell => cell.length = nruns ∧ ∀ rs ∈ cell, rs.length = episodes ∧ ∀ x ∈ rs, 1 ≤ x)
      (fun ai a cell hc => runsInCell_ok _ (fun rs => rs.length = episodes ∧ ∀ x ∈ rs, 1 ≤ x)
        (fun r s p hr => one_run_ok _ _ _ _ _ _ _ _ _ _ _ _ hr) nruns 0 cell hc)
      alphas 0 rows halpha
    refine ⟨by simp [hlen], fun row hr => ?_⟩
    rcases List.mem_cons.mp hr with h1 | h1
    · subst h1
      exact ⟨hrows.1, fun cell hc => hrows.2 cell hc⟩
    · exact hmem row h1

/-- C4 (amended): the policy-gradient metric tensor has shape
`(len(sizes), len(alphas), runs, episodes)` and every per-episode step count
is at least 1; the upper bound `max_steps` is NOT enforced by the runner
(see the counterexample): an episode ends only when the environment signals
`done`. -/
theorem c4_amended {P : Type} (optRf optAc : P → List (ℚ × ℚ) → List ℚ → P)
    (agent : AgentMode) (gamma : ℚ) (sizes : List ℕ) (alphas : List ℚ)
    (nruns episodes : ℕ) (seedStream : ℕ → ℕ)
    (traces : ℕ → ℕ → ℕ → ℕ → List (Except EnvError (ℚ × Bool)))
    (acts : ℕ → ℕ → ℕ → ℕ → ℕ → ℚ × ℚ) (p0 : ℕ → P)
    (t : List (List (List (List ℕ))))
    (h : runs optRf optAc agent gamma sizes alphas nruns episodes seedStream traces acts p0 =
      .ok t) :
    t.length = sizes.length ∧ ∀ row ∈ t, row.length = alphas.length ∧
      ∀ cell ∈ row, cell.length = nruns ∧
        ∀ rs ∈ cell, rs.length = episodes ∧ ∀ x ∈ rs, 1 ≤ x :=
  runs_go_ok optRf optAc agent gamma alphas nruns episodes seedStream traces acts p0
    sizes 0 t h

/-- Witness configuration: one grid cell, one run, one one-step episode. -/
theorem c4_amended_witness :
    runs (P := Unit) (fun p _ _ => p) (fun p _ _ => p) .rf 1 [32] [1] 1 1 (fun _ => 0)
        (fun _ _ _ _ => [.ok (1, true)]) (fun _ _ _ _ _ => (0, 0)) (fun _ => ()) =
      .ok [[[[1]]]] ∧
    ([[[[1]]]] : List (List (List (List ℕ)))).length = [32].length := by
  constructor
  · rfl
  · exact (c4_amended (P := Unit) (fun p _ _ => p) (fun p _ _ => p) .rf 1 [32] [1] 1 1
      (fun _ => 0) (fun _ _ _ _ => [.ok (1, true)]) (fun _ _ _ _ _ => (0, 0)) (fun _ => ())
      [[[[1]]]] rfl).1

/-- C8 counterexample: with a valid `γ = 1` and learning rates `[1, -1]`, the
runs of the first grid cell (α = 1) execute completely before the assertion
on the invalid `α = -1` fires, so partial runs ARE executed. -/
theorem c8_counterexample :
    runs (P := Unit) (fun p _ _ => p) (fun p _ _ => p) .rf 1 [32] [1, -1] 1 1 (fun _ => 0)
        (fun _ _ _ _ => [.ok (1, true)]) (fun _ _ _ _ _ => (0, 0)) (fun _ => ()) =
      .error (⟨0, 1, 0, .assertAlpha⟩, [[1]]) ∧ ([[1]] : List (List ℕ)) ≠ [] := by
  exact ⟨rfl, by simp⟩

theorem one_run_invalid_gamma {P : Type} (optRf optAc : P → List (ℚ × ℚ) → List ℚ → P)
    (agent : AgentMode) (gamma alpha : ℚ) (seed episodes : ℕ)
    (traces : ℕ → List (Except EnvError (ℚ × Bool))) (acts : ℕ → ℕ → ℚ × ℚ) (p0 : P)
    (h : ¬ (0 ≤ gamma ∧ gamma ≤ 1)) :
    one_run optRf optAc agent gamma alpha seed episodes traces acts p0 = .assertGamma := by
  simp [one_run, h]

theorem one_run_invalid_alpha {P : Type} (optRf optAc : P → List (ℚ × ℚ) → List ℚ → P)
    (agent : AgentMode) (gamma alpha : ℚ) (seed episodes : ℕ)
    (traces : ℕ → List (Except EnvError (ℚ × Bool))) (acts : ℕ → ℕ → ℚ × ℚ) (p0 : P)
    (hg : 0 ≤ gamma ∧ gamma ≤ 1) (h : ¬ (0 < alpha)) :
    one_run optRf optAc agent gamma alpha seed episodes traces acts p0 = .assertAlpha := by
  simp [one_run, hg, h]

/-- C8 (amended): the `γ` and `α` assertions sit at the top of `one_run`, so
they fire at the start of each run, not before the grid loop begins.  An
invalid `γ` (shared by the whole grid) therefore aborts the very first run
with no run executed, and an invalid `α` aborts the first run of its own
grid cell — but runs of earlier cells have already executed by then
(see the counterexample). -/
theorem c8_amended {P : Type} (optRf optAc : P → List (ℚ × ℚ) → List ℚ → P)
    (agent : AgentMode) (gamma : ℚ) (hs : ℕ) (sizes : List ℕ) (a : ℚ) (alphas : List ℚ)
    (nruns episodes : ℕ) (seedStream : ℕ → ℕ)
    (traces : ℕ → ℕ → ℕ → ℕ → List (Except EnvError (ℚ × Bool)))
    (acts : ℕ → ℕ → ℕ → ℕ → ℕ → ℚ × ℚ) (p0 : ℕ → P) (k : ℕ)
    (hγ : ¬ (0 ≤ gamma ∧ gamma ≤ 1)) (hn : nruns = k + 1) :
    runs optRf optAc agent gamma (hs :: sizes) (a :: alphas) nruns episodes seedStream
      traces acts p0 = .error (⟨0, 0, 0, .assertGamma⟩, []) := by
  subst hn
  show runs.go _ _ _ _ _ _ _ _ _ _ _ _ _ = _
  simp only [runs.go, runsOverAlphas, runsInCell, runs.doRun,
    one_run_invalid_gamma _ _ _ _ _ _ _ _ _ _ hγ]
  rfl

/-- C9 counterexample: the environment fails on the second step of episode 0
of run 0; the whole grid aborts: the error propagates out of `runs`, the
updater was never invoked (`updateCount = 0` in the carried policy state,
whose partial trajectory was never applied), and the second run — which
would have succeeded — is not executed (no completed run is reported). -/
theorem c9_counterexample :
    runs (P := Unit) (fun p _ _ => p) (fun p _ _ => p) .rf 1 [32] [1] 2 1 (fun _ => 0)
        (fun _ _ r _ => if r = 0 then [.ok (1, false), .error ⟨7⟩] else [.ok (1, true)])
        (fun _ _ _ _ _ => (0, 0)) (fun _ => ()) =
      .error (⟨0, 0, 0, .envFailed 0 ⟨7⟩ ⟨(), [(0, 0), (0, 0)], [1], 0⟩⟩, []) := by
  rfl

theorem episodeLoop_updateCount {P : Type} (act : ℕ → ℚ × ℚ)
    (tr : List (Except EnvError (ℚ × Bool))) : ∀ (p : PolicyState P) (n : ℕ),
    (∀ steps p', episodeLoop act tr p n = .finished steps p' → p'.updateCount = p.updateCount) ∧
    (∀ e p', episodeLoop act tr p n = .envFailed e p' → p'.updateCount = p.updateCount) := by
  induction tr with
  | nil => exact fun p n => ⟨fun _ _ h => by simp [episodeLoop] at h,
      fun _ _ h => by simp [episodeLoop] at h⟩
  | cons t rest ih =>
    intro p n
    constructor
    · intro steps p' h
      simp only [episodeLoop] at h
      rcases t with e | ⟨r, done⟩
      · simp at h
      · by_cases hd : done
        · simp [hd] at h
          rw [← h.2]
        · simp [hd] at h
          exact ((ih _ (n + 1)).1 _ _ h).trans rfl
    · intro e p' h
      simp only [episodeLoop] at h
      rcases t with e0 | ⟨r, done⟩
      · simp at h
        rw [← h.2]
      · by_cases hd : done
        · simp [hd] at h
        · simp [hd] at h
          exact ((ih _ (n + 1)).2 _ _ h).trans rfl

theorem runEpisodes_envFailed_count {P : Type} (bp : PolicyState P → PolicyState P)
    (hbp : ∀ q, (bp q).updateCount = q.updateCount + 1)
    (traces : ℕ → List (Except EnvError (ℚ × Bool))) (acts : ℕ → ℕ → ℚ × ℚ) :
    ∀ (n e : ℕ) (scores : List ℕ) (p : PolicyState P) (e' : ℕ) (err : EnvError)
    (p' : PolicyState P), p.updateCount = e →
    runEpisodes bp traces acts n e scores p = .envFailed e' err p' →
    p'.updateCount = e' := by
  intro n
  induction n with
  | zero => intro e scores p e' err p' _ h; simp [runEpisodes] at h
  | succ k ih =>
    intro e scores p e' err p' hcount h
    simp only [runEpisodes] at h
    rcases he : episodeLoop (acts e) (traces e) p 0 with steps | ⟨er, pf⟩ | _ <;> rw [he] at h
    · exact ih (e + 1) _ _ e' err p'
        (by rw [hbp, (episodeLoop_updateCount _ _ _ _).1 _ _ he, hcount]) h
    · simp only [RunResult.envFailed.injEq] at h
      rw [← h.2.2, (episodeLoop_updateCount _ _ _ _).2 _ _ he, hcount, ← h.1]
    · simp at h

/-- C9 (amended): when the environment raises during episode `e` of a run,
the run aborts with exactly `e` optimizer steps taken — one per completed
episode and none for the failed one, whose partial trajectory is carried in
the error, never applied — and the exception propagates: it aborts the whole
grid, not just the affected run (see the counterexample). -/
theorem c9_amended {P : Type} (optRf optAc : P → List (ℚ × ℚ) → List ℚ → P)
    (agent : AgentMode) (gamma alpha : ℚ) (seed episodes : ℕ)
    (traces : ℕ → List (Except EnvError (ℚ × Bool))) (acts : ℕ → ℕ → ℚ × ℚ) (p0 : P)
    (e : ℕ) (err : EnvError) (p' : PolicyState P)
    (h : one_run optRf optAc agent gamma alpha seed episodes traces acts p0 =
      .envFailed e err p') :
    p'.updateCount = e := by
  simp only [one_run] at h
  by_cases h1 : ¬ (0 ≤ gamma ∧ gamma ≤ 1)
  · simp [h1] at h
  by_cases h2 : ¬ (0 < alpha)
  · simp [h1, h2] at h
  simp only [h1, h2, if_false] at h
  exact runEpisodes_envFailed_count (backprop_dispatch agent optRf optAc)
    (fun q => by cases agent <;> rfl) traces acts episodes 0 [] _ e err p' rfl h

theorem runsInCell_take {P : Type} (doRun : ℕ → RunResult P) :
    ∀ (k m r0 : ℕ) (l : List (List ℕ)),
    runsInCell doRun (k + m) r0 = .ok l → runsInCell doRun k r0 = .ok (l.take k) := by
  intro k
  induction k with
  | zero => intro m r0 l _; rfl
  | succ j ih =>
    intro m r0 l h
    have hsum : j + 1 + m = (j + m) + 1 := by omega
    rw [hsum] at h
    simp only [runsInCell] at h ⊢
    cases hr : doRun r0 with
    | ok s p =>
      rw [hr] at h
      rcases hc : runsInCell doRun (j + m) (r0 + 1) with ⟨e, done⟩ | rest <;> rw [hc] at h
      · exact absurd h (by simp)
      · simp only [Except.ok.injEq] at h
        subst h
        rw [ih m (r0 + 1) rest hc]
        simp
    | assertGamma => rw [hr] at h; exact absurd h (by simp)
    | assertAlpha => rw [hr] at h; exact absurd h (by simp)
    | envFailed e err pp => rw [hr] at h; exact absurd h (by simp)
    | hung => rw [hr] at h; exact absurd h (by simp)

/-- C7, Q02 side: `one_run` accepts a per-run seed and ignores it — the runs
of the policy-gradient study are not individually seeded. -/
theorem one_run_ignores_seed {P : Type} (optRf optAc : P → List (ℚ × ℚ) → List ℚ → P)
    (agent : AgentMode) (gamma alpha : ℚ) (seed1 seed2 : ℕ) (episodes : ℕ)
    (traces : ℕ → List (Except EnvError (ℚ × Bool))) (acts : ℕ → ℕ → ℚ × ℚ) (p0 : P) :
    one_run optRf optAc agent gamma alpha seed1 episodes traces acts p0 =
      one_run optRf optAc agent gamma alpha seed2 episodes traces acts p0 := rfl

theorem sum_map_sub_div (l : List ℝ) (μ c : ℝ) :
    (l.map fun x => (x - μ) / c).sum = (l.sum - l.length * μ) / c := by
  induction l with
  | nil => simp
  | cons a t ih =>
    rw [List.map_cons, List.sum_cons, ih, div_add_div_same, List.length_cons,
      List.sum_cons]
    congr 1
    push_cast
    ring

theorem sum_map_sq_div (l : List ℝ) (μ c : ℝ) :
    (l.map fun x => ((x - μ) / c) ^ 2).sum = (l.map fun x => (x - μ) ^ 2).sum / c ^ 2 := by
  induction l with
  | nil => simp
  | cons a t ih =>
    rw [List.map_cons, List.sum_cons, ih, div_pow, div_add_div_same, List.map_cons,
      List.sum_cons]

theorem listVar_nonneg_of_len (l : List ℝ) (h : 2 ≤ l.length) : 0 ≤ listVar l := by
  apply div_nonneg
  · apply List.sum_nonneg
    intro x hx
    rcases List.mem_map.mp hx with ⟨y, _, rfl⟩
    positivity
  · have : (2 : ℝ) ≤ l.length := by exact_mod_cast h
    linarith

theorem listVar_len_le_one (l : List ℝ) (h : l.length ≤ 1) : listVar l = 0 := by
  rcases Nat.le_one_iff_eq_zero_or_eq_one.mp h with h0 | h1
  · rw [List.length_eq_zero] at h0
    subst h0
    simp [listVar]
  · simp [listVar, h1]


theorem listVar_nonneg (l : List ℝ) : 0 ≤ listVar l := by
  by_cases h : l.length ≤ 1
  · rw [listVar_len_le_one l h]
  · exact listVar_nonneg_of_len l (by omega)

theorem normalize_mean_zero (l : List ℝ) : listMean (normalize_returns l) = 0 := by
  by_cases h : l = []
  · subst h
    simp [normalize_returns, listMean]
  · have hn : (l.length : ℝ) ≠ 0 := by
      exact_mod_cast fun hc => h (List.length_eq_zero.mp hc)
    have hz : l.sum - (l.length : ℝ) * (l.sum / l.length) = 0 := by
      field_simp
    simp only [listMean, normalize_returns, List.length_map, sum_map_sub_div]
    rw [hz, zero_div, zero_div]

theorem normalize_var (l : List ℝ) :
    listVar (normalize_returns l) = listVar l / (listStd l + epsR) ^ 2 := by
  unfold listVar
  rw [normalize_mean_zero]
  simp only [normalize_returns, List.map_map, List.length_map, Function.comp_def, sub_zero]
  rw [sum_map_sq_div, div_right_comm]

theorem normalize_std (l : List ℝ) :
    listStd (normalize_returns l) = listStd l / (listStd l + epsR) := by
  have he : (0 : ℝ) < epsR := by norm_num [epsR]
  have hc : (0 : ℝ) < listStd l + epsR := by
    have := Real.sqrt_nonneg (listVar l)
    unfold listStd at *
    linarith
  rw [listStd, normalize_var, Real.sqrt_div (listVar_nonneg l), Real.sqrt_sq hc.le,
    ← listStd]

/-- C5 counterexample: the non-constant reward list `[1/10, 1]` with
`γ = 9/10` yields the constant return list `[1, 1]`, whose normalization is
`[0, 0]`; its standard deviation is 0, not within `eps` of 1. -/
theorem c5_counterexample :
    discount_rewards ((9 : ℝ) / 10) [1 / 10, 1] = [1, 1] ∧
    normalize_returns [1, 1] = [0, 0] ∧
    ¬ |listStd (normalize_returns
        (discount_rewards ((9 : ℝ) / 10) [1 / 10, 1])) - 1| ≤ epsR := by
  have h1 : discount_rewards ((9 : ℝ) / 10) [1 / 10, 1] = [1, 1] := by
    rw [discount_rewards_cons, discount_rewards_cons]
    norm_num [discount_rewards]
  have hm : listMean [(1 : ℝ), 1] = 1 := by
    norm_num [listMean]
  have hv : listVar [(1 : ℝ), 1] = 0 := by
    simp [listVar, hm]
  have hs : listStd [(1 : ℝ), 1] = 0 := by
    rw [listStd, hv, Real.sqrt_zero]
  have h2 : normalize_returns [(1 : ℝ), 1] = [0, 0] := by
    simp [normalize_returns, hm, hs]
  refine ⟨h1, h2, ?_⟩
  rw [h1, h2]
  have hm0 : listMean [(0 : ℝ), 0] = 0 := by norm_num [listMean]
  have hv0 : listVar [(0 : ℝ), 0] = 0 := by simp [listVar, hm0]
  rw [listStd, hv0, Real.sqrt_zero]
  norm_num [epsR]

/-- C5 (amended): normalization always gives mean exactly 0, and whenever the
unnormalized returns have standard deviation at least 1 the normalized
standard deviation is within `eps = 2⁻²³` of 1.  (For returns of standard
deviation below `1 - eps` — e.g. constant returns from non-constant rewards —
the deviation bound fails, as the counterexample shows.) -/
theorem c5_amended (gamma : ℝ) (rewards : List ℝ)
    (h : 1 ≤ listStd (discount_rewards gamma rewards)) :
    listMean (normalize_returns (discount_rewards gamma rewards)) = 0 ∧
    |listStd (normalize_returns (discount_rewards gamma rewards)) - 1| ≤ epsR := by
  set l := discount_rewards gamma rewards with hl
  refine ⟨normalize_mean_zero l, ?_⟩
  have he : (0 : ℝ) < epsR := by norm_num [epsR]
  have hc : (0 : ℝ) < listStd l + epsR := by linarith
  have hfrac : listStd l / (listStd l + epsR) - 1 = -(epsR / (listStd l + epsR)) := by
    field_simp
  rw [normalize_std, hfrac, abs_neg, abs_of_pos (div_pos he hc)]
  exact div_le_self he.le (by linarith)

/-- Witness for C5 (amended): `γ = 0`, rewards `[0, 2]`, returns `[0, 2]`
with variance 2, hence standard deviation `√2 ≥ 1`. -/
theorem c5_amended_witness :
    1 ≤ listStd (discount_rewards (0 : ℝ) [0, 2]) ∧
    listMean (normalize_returns (discount_rewards (0 : ℝ) [0, 2])) = 0 ∧
    |listStd (normalize_returns (discount_rewards (0 : ℝ) [0, 2])) - 1| ≤ epsR := by
  have hd : discount_rewards (0 : ℝ) [0, 2] = [0, 2] := by
    rw [discount_rewards_cons, discount_rewards_cons]
    norm_num [discount_rewards]
  have hm : listMean [(0 : ℝ), 2] = 1 := by norm_num [listMean]
  have hv : listVar [(0 : ℝ), 2] = 2 := by
    simp [listVar, hm]
    norm_num
  have h : 1 ≤ listStd (discount_rewards (0 : ℝ) [0, 2]) := by
    rw [hd, listStd, hv]
    rw [show (1 : ℝ) = Real.sqrt 1 from (Real.sqrt_one).symm]
    exact Real.sqrt_le_sqrt (by norm_num)
  exact ⟨h, c5_amended 0 [0, 2] h⟩

theorem hiddenOut_congr {n h m : ℕ} (θ₁ θ₂ : Coord n h m → ℝ)
    (hagree : ∀ c : Coord n h m, c.isValue = false → θ₁ c = θ₂ c)
    (x : Fin n → ℝ) (j : Fin h) : hiddenOut θ₁ x j = hiddenOut θ₂ x j := by
  have hs : (∑ i, θ₁ (.hiddenW j i) * x i) = ∑ i, θ₂ (.hiddenW j i) * x i :=
    Finset.sum_congr rfl fun i _ => by rw [hagree (.hiddenW j i) rfl]
  rw [hiddenOut, hiddenOut, hs, hagree (.hiddenB j) rfl]

theorem logProb_congr {n h m : ℕ} (θ₁ θ₂ : Coord n h m → ℝ)
    (hagree : ∀ c : Coord n h m, c.isValue = false → θ₁ c = θ₂ c)
    (x : Fin n → ℝ) (a : Fin m) : logProb θ₁ x a = logProb θ₂ x a := by
  have hl : ∀ k, actionLogit θ₁ x k = actionLogit θ₂ x k := by
    intro k
    have hs : (∑ j, θ₁ (.actionW k j) * hiddenOut θ₁ x j) =
        ∑ j, θ₂ (.actionW k j) * hiddenOut θ₂ x j :=
      Finset.sum_congr rfl fun j _ => by
        rw [hagree (.actionW k j) rfl, hiddenOut_congr θ₁ θ₂ hagree]
    rw [actionLogit, actionLogit, hs, hagree (.actionB k) rfl]
  have hp : actionProb θ₁ x a = actionProb θ₂ x a := by
    rw [actionProb, actionProb, hl a]
    congr 1
    exact Finset.sum_congr rfl fun k2 _ => by rw [hl k2]
  rw [logProb, logProb, hp]

theorem lossRF_congr {n h m : ℕ} (gamma : ℝ) (θ₁ θ₂ : Coord n h m → ℝ)
    (traj : List ((Fin n → ℝ) × Fin m)) (rewards : List ℝ)
    (hagree : ∀ c : Coord n h m, c.isValue = false → θ₁ c = θ₂ c) :
    lossRF gamma θ₁ traj rewards = lossRF gamma θ₂ traj rewards := by
  unfold lossRF
  refine congrArg List.sum (congrArg (fun f => List.zipWith f traj _) ?_)
  funext p R
  rw [logProb_congr θ₁ θ₂ hagree]

/-- The REINFORCE loss never reads a `value_head` coordinate, so its
gradient there is the derivative of a constant. -/
theorem rfGrad_value {n h m : ℕ} (gamma : ℝ)
    (traj : List ((Fin n → ℝ) × Fin m)) (rewards : List ℝ)
    (θ : Coord n h m → ℝ) (c : Coord n h m) (hc : c.isValue = true) :
    rfGrad gamma traj rewards θ c = 0 := by
  have hconst : (fun z => lossRF gamma (Function.update θ c z) traj rewards) =
      fun _ => lossRF gamma θ traj rewards := by
    funext z
    apply lossRF_congr
    intro c2 hc2
    apply Function.update_noteq
    intro hcc
    rw [hcc, hc] at hc2
    exact Bool.noConfusion hc2
  rw [rfGrad, hconst, deriv_const]

/-- An Adam step on a zero gradient with zero moments changes nothing. -/
theorem adamStep_zero (lr : ℝ) (t : ℕ) (w : ℝ) :
    adamStep lr 0 0 0 t w = (w, 0, 0) := by
  simp [adamStep, Real.sqrt_zero]

theorem rfEpisodeUpdate_value {n h m : ℕ} (gamma lr : ℝ)
    (ep : List ((Fin n → ℝ) × Fin m) × List ℝ) (t : ℕ)
    (s : (Coord n h m → ℝ) × (Coord n h m → ℝ) × (Coord n h m → ℝ))
    (c : Coord n h m) (hc : c.isValue = true)
    (hms : s.2.1 c = 0) (hvs : s.2.2 c = 0) :
    (rfEpisodeUpdate gamma lr ep t s).1 c = s.1 c ∧
    (rfEpisodeUpdate gamma lr ep t s).2.1 c = 0 ∧
    (rfEpisodeUpdate gamma lr ep t s).2.2 c = 0 := by
  unfold rfEpisodeUpdate
  simp [rfGrad_value gamma ep.1 ep.2 s.1 c hc, hms, hvs, adamStep_zero]

theorem rfTrain_fold_value {n h m : ℕ} (gamma lr : ℝ)
    (episodes : List (List ((Fin n → ℝ) × Fin m) × List ℝ)) :
    ∀ (s : (Coord n h m → ℝ) × (Coord n h m → ℝ) × (Coord n h m → ℝ)) (t : ℕ)
      (c : Coord n h m), c.isValue = true → s.2.1 c = 0 → s.2.2 c = 0 →
      (episodes.foldl
        (fun st ep => (rfEpisodeUpdate gamma lr ep st.2 st.1, st.2 + 1))
        (s, t)).1.1 c = s.1 c ∧
      (episodes.foldl
        (fun st ep => (rfEpisodeUpdate gamma lr ep st.2 st.1, st.2 + 1))
        (s, t)).1.2.1 c = 0 ∧
      (episodes.foldl
        (fun st ep => (rfEpisodeUpdate gamma lr ep st.2 st.1, st.2 + 1))
        (s, t)).1.2.2 c = 0 := by
  induction episodes with
  | nil => exact fun s t c _ hms hvs => ⟨rfl, hms, hvs⟩
  | cons ep rest ih =>
    intro s t c hc hms hvs
    have hstep := rfEpisodeUpdate_value gamma lr ep t s c hc hms hvs
    have hrest := ih (rfEpisodeUpdate gamma lr ep t s) (t + 1) c hc hstep.2.1 hstep.2.2
    exact ⟨hrest.1.trans hstep.1, hrest.2.1, hrest.2.2⟩

/-- C10: in REINFORCE mode every per-episode update leaves the
`value_head` parameters unchanged — the loss is built only from the stored
log-probabilities and normalized returns, so the value coordinates receive
zero gradient and Adam (from zero moments) leaves them fixed, over any
sequence of episodes. -/
theorem c10_value_head_frozen {n h m : ℕ} (gamma lr : ℝ)
    (episodes : List (List ((Fin n → ℝ) × Fin m) × List ℝ))
    (θ0 : Coord n h m → ℝ) (c : Coord n h m) (hc : c.isValue = true) :
    (rfTrain gamma lr episodes θ0).1 c = θ0 c := by
  exact (rfTrain_fold_value gamma lr episodes (θ0, fun _ => 0, fun _ => 0) 1 c hc rfl rfl).1

/-- Witness: a 1-1-1 network, one episode, the value bias stays at its
initial value 5. -/
theorem c10_value_head_frozen_witness :
    (Coord.valueB : Coord 1 1 1).isValue = true ∧
    (rfTrain 0 1 [([], [])] (fun _ : Coord 1 1 1 => (5 : ℝ))).1 Coord.valueB = 5 :=
  ⟨rfl, c10_value_head_frozen 0 1 [([], [])] (fun _ => (5 : ℝ)) Coord.valueB rfl⟩

/-- C7 counterexample: two different per-run seed streams (constant 0 and
constant 12345) produce identical grid results — the runs of the
policy-gradient study never consume their seeds, so they are not seeded
from a deterministic increasing counter. -/
theorem c7_counterexample :
    runs (fun (p : Unit) _ _ => p) (fun p _ _ => p) .rf 1 [1] [1] 1 1
        (fun _ => 0) (fun _ _ _ _ => [.ok (1, true)]) (fun _ _ _ _ _ => (0, 0))
        (fun _ => ()) =
      runs (fun (p : Unit) _ _ => p) (fun p _ _ => p) .rf 1 [1] [1] 1 1
        (fun _ => 12345) (fun _ _ _ _ => [.ok (1, true)]) (fun _ _ _ _ _ => (0, 0))
        (fun _ => ()) ∧
    (fun _ : ℕ => (0 : ℕ)) 0 ≠ (fun _ : ℕ => (12345 : ℕ)) 0 :=
  ⟨rfl, by decide⟩

/-- C7 (amended): the Baird study (`HW03Q01.py`) does seed run `r`
deterministically with counter value `seedStart + r`, so requesting more
runs preserves the earlier runs' results as a prefix; in the policy-gradient
study (`HW03Q02.py`) `one_run` ignores the seed it is handed, and the
prefix property holds there because each completed run's scores are
appended independently. -/
theorem c7_amended :
    (∀ seedStart k k2 steps : ℕ, k ≤ k2 →
      (train_all_runs seedStart k2 steps).take k = train_all_runs seedStart k steps) ∧
    (∀ (P : Type) (optRf optAc : P → List (ℚ × ℚ) → List ℚ → P)
      (agent : AgentMode) (gamma alpha : ℚ) (seed1 seed2 : ℕ) (episodes : ℕ)
      (traces : ℕ → List (Except EnvError (ℚ × Bool))) (acts : ℕ → ℕ → ℚ × ℚ) (p0 : P),
      one_run optRf optAc agent gamma alpha seed1 episodes traces acts p0 =
        one_run optRf optAc agent gamma alpha seed2 episodes traces acts p0) ∧
    (∀ (P : Type) (doRun : ℕ → RunResult P) (k m r0 : ℕ) (l : List (List ℕ)),
      runsInCell doRun (k + m) r0 = .ok l → runsInCell doRun k r0 = .ok (l.take k)) :=
  ⟨fun seedStart k k2 steps h => train_all_runs_take seedStart k k2 steps h,
   fun _ _ _ _ _ _ _ _ _ _ _ _ => rfl,
   fun _ doRun k m r0 l h => runsInCell_take doRun k m r0 l h⟩

/-- Witness: 1 of 2 Baird runs is a prefix, and a 2-run cell truncates to
its first run. -/
theorem c7_amended_witness :
    ((1 : ℕ) ≤ 2 ∧
      (train_all_runs 16 2 1).take 1 = train_all_runs 16 1 1) ∧
    (runsInCell (fun _ => RunResult.ok ([] : List ℕ) (⟨(), [], [], 0⟩ : PolicyState Unit))
        (1 + 1) 0 = .ok [[], []] ∧
      runsInCell (fun _ => RunResult.ok ([] : List ℕ) (⟨(), [], [], 0⟩ : PolicyState Unit))
        1 0 = .ok ([([] : List ℕ), []].take 1)) :=
  ⟨⟨by decide, c7_amended.1 16 1 2 1 (by decide)⟩,
   rfl, c7_amended.2.2 Unit _ 1 1 0 [[], []] rfl⟩


/-- Witness for C8 (amended): `γ = 2` aborts a 1-cell grid with the gamma
assert before any run. -/
theorem c8_amended_witness :
    ¬ ((0 : ℚ) ≤ 2 ∧ (2 : ℚ) ≤ 1) ∧ (1 : ℕ) = 0 + 1 ∧
    runs (P := Unit) (fun p _ _ => p) (fun p _ _ => p) .rf 2 [32] [1] 1 1 (fun _ => 0)
        (fun _ _ _ _ => [.ok (1, true)]) (fun _ _ _ _ _ => (0, 0)) (fun _ => ()) =
      .error (⟨0, 0, 0, .assertGamma⟩, []) :=
  ⟨by norm_num, rfl,
    c8_amended (fun p _ _ => p) (fun p _ _ => p) .rf 2 32 [] 1 [] 1 1 (fun _ => 0)
      (fun _ _ _ _ => [.ok (1, true)]) (fun _ _ _ _ _ => (0, 0)) (fun _ => ()) 0
      (by norm_num) rfl⟩

/-- Witness for C9 (amended): the environment fails on the first step of the
first episode; the run aborts with zero optimizer steps. -/
theorem c9_amended_witness :
    one_run (P := Unit) (fun p _ _ => p) (fun p _ _ => p) .rf 1 1 0 1
        (fun _ => [.error ⟨7⟩]) (fun _ _ => (0, 0)) () =
      .envFailed 0 ⟨7⟩ ⟨(), [(0, 0)], [], 0⟩ ∧
    (⟨(), [(0, 0)], [], 0⟩ : PolicyState Unit).updateCount = 0 :=
  ⟨rfl, c9_amended (fun p _ _ => p) (fun p _ _ => p) .rf 1 1 0 1
    (fun _ => [.error ⟨7⟩]) (fun _ _ => (0, 0)) () 0 ⟨7⟩ ⟨(), [(0, 0)], [], 0⟩ rfl⟩
